import Mathlib

/-!
Verification development for the "reino de las bestias" backend.

The Python sources under scrutiny are `main.py` (HTTP handlers),
`models.py` (ORM tables and unique constraints), `ai.py` (enumerations and
the validation wrapped around the text-generation service),
`utils_animals.py` (display-name tables) and `schemas.py` (request shapes).

Modelling conventions:
* machine state is an explicit `DB` record (lists of rows); every handler is
  a pure function from a `DB` plus request data to a response, a new `DB`,
  and a flag recording whether the external text-generation service was
  invoked;
* the external text-generation service is an opaque collaborator, supplied
  to each operation as an `Except String String` oracle (`.error` models the
  client raising an exception, `.ok` the returned text);
* the relational store's row-level unique constraints are modelled at the
  insertion point: an insert that would violate a constraint produces the
  `IntegrityError` branch of the handler (rolled-back transaction);
* SQLAlchemy comparisons against `None` render as `IS NULL`, which matches
  plain `Option` equality, so column comparisons use `Option` equality;
* timestamps (`created_at`, `updated_at`) and bearer-token transport are not
  modelled: authentication is modelled as looking the user row up by id;
* Python string truthiness (`x or y`) is modelled by `pyOr` / `pyTruthy`.
-/

namespace Reino

/-- Python truthiness of a string: the empty string is falsy. -/
def pyStrTruthy (s : String) : Bool := s ≠ ""

/-- Python truthiness of an optional string: `None` and `""` are falsy. -/
def pyTruthy : Option String → Bool
  | none => false
  | some s => pyStrTruthy s

/-- Python `a or b` on strings. -/
def pyOr (a b : String) : String := if a = "" then b else a

/-- Python `a or b` where `a` is optional (`None`/`""` falsy). -/
def pyOrOpt (a : Option String) (b : String) : String :=
  match a with
  | none => b
  | some s => if s = "" then b else s

/-- Python `max(0, value)` from `clamp_credits` in `main.py`. -/
def clamp_credits (value : Int) : Int := max 0 value

/-- Python `str.strip()` (whitespace trimmed from both ends). -/
def pyStrip (s : String) : String :=
  String.mk (((s.data.dropWhile Char.isWhitespace).reverse.dropWhile Char.isWhitespace).reverse)

/-- Python `str.upper()`; the inputs are ASCII language codes. -/
def pyUpper (s : String) : String := s.map Char.toUpper

/-- Python `str.startswith(p)`. -/
def pyStartsWith (s p : String) : Bool := p.data.isPrefixOf s.data

/-- Index of the first occurrence of `pat` in the character list, like
Python `str.find` (an empty pattern matches at index 0). -/
def findSubstrIdx : List Char → List Char → Nat → Option Nat
  | [], pat, i => if pat.isEmpty then some i else none
  | c :: rest, pat, i =>
    if pat.isPrefixOf (c :: rest) then some i else findSubstrIdx rest pat (i + 1)

/-- Python `s.replace(pat, "", 1)`: remove the first occurrence of `pat`. -/
def replaceFirst (s pat : String) : String :=
  match findSubstrIdx s.data pat.data 0 with
  | none => s
  | some i => String.mk (s.data.take i ++ s.data.drop (i + pat.data.length))

/-- Python `str.splitlines()` modelled as splitting on the newline
character; the texts it is applied to carry no carriage returns and no
trailing newline (they are `strip()`-ed first), where the two functions
agree. -/
def splitLinesAux : List Char → List Char → List (List Char)
  | [], acc => [acc.reverse]
  | c :: rest, acc =>
    if c = '\n' then acc.reverse :: splitLinesAux rest [] else splitLinesAux rest (c :: acc)

/-- Split a string into lines at newline characters. -/
def pySplitLines (s : String) : List String :=
  (splitLinesAux s.data []).map String.mk

/-- Join lines back with newline characters (`"\n".join(lines)`). -/
def joinLines : List String → String
  | [] => ""
  | [l] => l
  | l :: rest => l ++ "\n" ++ joinLines rest

/-! ## Enumerations (`ai.py`) -/

/-- Python `ALLOWED_ANIMALS` from `ai.py`: the 24 animal codes. -/
def ALLOWED_ANIMALS : List String :=
  ["Wolf", "Lion", "Tiger", "Lynx", "Panther", "Bear", "Fox", "Wolverine",
   "Deer", "Monkey", "Rabbit", "Buffalo", "Ram", "Capybara", "Elephant",
   "Horse", "Eagle", "Owl", "Raven", "Parrot", "Snake", "Crocodile",
   "Turtle", "Lizard"]

/-- Python `ALLOWED_ELEMENTS` from `ai.py`: the 4 element codes. -/
def ALLOWED_ELEMENTS : List String := ["Воздух", "Вода", "Огонь", "Земля"]

/-- Python `ALLOWED_GENDERS` from `ai.py`. -/
def ALLOWED_GENDERS : List String := ["male", "female", "unspecified"]

/-- Python `COMPAT_PROMPT_VERSION` from `ai.py`. -/
def COMPAT_PROMPT_VERSION : String := "v3"

/-! ## Display-name tables (`utils_animals.py`) -/

/-- Python `ELEMENT_LABELS["ru"]` (genitive labels). -/
def elementLabelsRu : List (String × String) :=
  [("Воздух", "Воздуха"), ("Вода", "Воды"), ("Огонь", "Огня"), ("Земля", "Земли")]

/-- Python `ELEMENT_LABELS["en"]`. -/
def elementLabelsEn : List (String × String) :=
  [("Воздух", "Air"), ("Вода", "Water"), ("Огонь", "Fire"), ("Земля", "Earth")]

/-- Python `ELEMENT_LABELS["es"]`. -/
def elementLabelsEs : List (String × String) :=
  [("Воздух", "Aire"), ("Вода", "Agua"), ("Огонь", "Fuego"), ("Земля", "Tierra")]

/-- Python `ELEMENT_LABELS["pt"]`. -/
def elementLabelsPt : List (String × String) :=
  [("Воздух", "Ar"), ("Вода", "Água"), ("Огонь", "Fogo"), ("Земля", "Terra")]

/-- Python `ELEMENT_LABELS.get(lang)`: `none` models a missing key. -/
def ELEMENT_LABELS (lang : String) : Option (List (String × String)) :=
  if lang = "ru" then some elementLabelsRu
  else if lang = "en" then some elementLabelsEn
  else if lang = "es" then some elementLabelsEs
  else if lang = "pt" then some elementLabelsPt
  else none

/-- Python `ELEMENT_LABELS.values()` in insertion order. -/
def elementLabelsAll : List (List (String × String)) :=
  [elementLabelsRu, elementLabelsEn, elementLabelsEs, elementLabelsPt]

/-- Dictionary lookup by key in an association list (`dict.get(key)`). -/
def lookupByKey (tbl : List (String × String)) (key : String) : Option String :=
  (tbl.find? (fun p => p.1 == key)).map (fun p => p.2)

/-- Reverse lookup: find the code whose label equals `label`; models the
`for element_code, label in label_map.items()` loops of
`normalize_locked_element`. -/
def lookupByLabel (tbl : List (String × String)) (label : String) : Option String :=
  (tbl.find? (fun p => p.2 == label)).map (fun p => p.1)

/-- Search a list of label maps in order for a label match. -/
def findInLabelMaps (maps : List (List (String × String))) (label : String) : Option String :=
  match maps with
  | [] => none
  | m :: rest =>
    match lookupByLabel m label with
    | some code => some code
    | none => findInLabelMaps rest label

/-- Python `ANIMAL_RU` from `utils_animals.py`: code, male form, female form. -/
def ANIMAL_RU : List (String × String × String) :=
  [("Wolf", "Волк", "Волчица"), ("Lion", "Лев", "Львица"),
   ("Tiger", "Тигр", "Тигрица"), ("Lynx", "Рысь", "Рысь"),
   ("Panther", "Пантера", "Пантера"), ("Bear", "Медведь", "Медведица"),
   ("Fox", "Койот", "Лиса"), ("Wolverine", "Росомаха", "Росомаха"),
   ("Deer", "Олень", "Лань"), ("Monkey", "Обезьяна", "Обезьяна"),
   ("Rabbit", "Кролик", "Кролик"), ("Buffalo", "Буйвол", "Буйволица"),
   ("Ram", "Баран", "Ибекса"), ("Capybara", "Капибара", "Капибара"),
   ("Elephant", "Слон", "Слониха"), ("Horse", "Конь", "Лошадь"),
   ("Eagle", "Орёл", "Орлица"), ("Owl", "Филин", "Сова"),
   ("Raven", "Ворон", "Ворона"), ("Parrot", "Попугай", "Попугаиха"),
   ("Snake", "Змей", "Змея"), ("Crocodile", "Крокодил", "Крокодил"),
   ("Turtle", "Черепаха", "Черепаха"), ("Lizard", "Ящерица", "Ящерица")]

/-- Python `ANIMAL_EMOJI` from `utils_animals.py`. -/
def ANIMAL_EMOJI : List (String × String) :=
  [("Wolf", "🐺"), ("Lion", "🦁"), ("Tiger", "🐯"), ("Lynx", "🐱"),
   ("Panther", "🐆"), ("Bear", "🐻"), ("Fox", "🦊"), ("Wolverine", "🦡"),
   ("Deer", "🦌"), ("Monkey", "🐵"), ("Rabbit", "🐰"), ("Buffalo", "🐃"),
   ("Ram", "🐏"), ("Capybara", "🐹"), ("Elephant", "🐘"), ("Horse", "🐴"),
   ("Eagle", "🦅"), ("Owl", "🦉"), ("Raven", "🐦"), ("Parrot", "🦜"),
   ("Snake", "🐍"), ("Crocodile", "🐊"), ("Turtle", "🐢"), ("Lizard", "🦎")]

/-- Python `ANIMAL_DISPLAY["en"]`. -/
def animalDisplayEn : List (String × String) :=
  [("Wolf", "Wolf"), ("Lion", "Lion"), ("Tiger", "Tiger"), ("Lynx", "Lynx"),
   ("Panther", "Panther"), ("Bear", "Bear"), ("Fox", "Fox"),
   ("Wolverine", "Wolverine"), ("Deer", "Deer"), ("Monkey", "Monkey"),
   ("Rabbit", "Rabbit"), ("Buffalo", "Buffalo"), ("Ram", "Ram"),
   ("Capybara", "Capybara"), ("Elephant", "Elephant"), ("Horse", "Horse"),
   ("Eagle", "Eagle"), ("Owl", "Owl"), ("Raven", "Raven"),
   ("Parrot", "Parrot"), ("Snake", "Snake"), ("Crocodile", "Crocodile"),
   ("Turtle", "Turtle"), ("Lizard", "Lizard")]

/-- Python `ANIMAL_DISPLAY["es"]`. -/
def animalDisplayEs : List (String × String) :=
  [("Wolf", "Lobo"), ("Lion", "León"), ("Tiger", "Tigre"), ("Lynx", "Lince"),
   ("Panther", "Pantera"), ("Bear", "Oso"), ("Fox", "Zorro"),
   ("Wolverine", "Glotón"), ("Deer", "Ciervo"), ("Monkey", "Mono"),
   ("Rabbit", "Conejo"), ("Buffalo", "Búfalo"), ("Ram", "Carnero"),
   ("Capybara", "Capibara"), ("Elephant", "Elefante"), ("Horse", "Caballo"),
   ("Eagle", "Águila"), ("Owl", "Búho"), ("Raven", "Cuervo"),
   ("Parrot", "Loro"), ("Snake", "Serpiente"), ("Crocodile", "Cocodrilo"),
   ("Turtle", "Tortuga"), ("Lizard", "Lagarto")]

/-- Python `ANIMAL_DISPLAY["pt"]`. -/
def animalDisplayPt : List (String × String) :=
  [("Wolf", "Lobo"), ("Lion", "Leão"), ("Tiger", "Tigre"), ("Lynx", "Lince"),
   ("Panther", "Pantera"), ("Bear", "Urso"), ("Fox", "Raposa"),
   ("Wolverine", "Carcaju"), ("Deer", "Cervo"), ("Monkey", "Macaco"),
   ("Rabbit", "Coelho"), ("Buffalo", "Búfalo"), ("Ram", "Carneiro"),
   ("Capybara", "Capivara"), ("Elephant", "Elefante"), ("Horse", "Cavalo"),
   ("Eagle", "Águia"), ("Owl", "Coruja"), ("Raven", "Corvo"),
   ("Parrot", "Papagaio"), ("Snake", "Serpente"), ("Crocodile", "Crocodilo"),
   ("Turtle", "Tartaruga"), ("Lizard", "Lagarto")]

/-- Python `ANIMAL_DISPLAY.get(lang)`. -/
def ANIMAL_DISPLAY (lang : String) : Option (List (String × String)) :=
  if lang = "en" then some animalDisplayEn
  else if lang = "es" then some animalDisplayEs
  else if lang = "pt" then some animalDisplayPt
  else none

/-- Python `get_animal_ru_name`: a direct dictionary index, so an unknown
animal code raises `KeyError`, modelled by `none`. -/
def get_animal_ru_name (animal_code gender : String) : Option String :=
  (ANIMAL_RU.find? (fun p => p.1 == animal_code)).map
    (fun p => if gender == "female" then p.2.2 else p.2.1)

/-- Python `get_animal_display_name` from `utils_animals.py`; `none` models
the `KeyError` that `get_animal_ru_name` can raise. -/
def get_animal_display_name (animal_code lang gender : String) : Option String :=
  if lang == "ru" then get_animal_ru_name animal_code gender
  else
    match ANIMAL_DISPLAY lang with
    | none => get_animal_ru_name animal_code gender
    | some tbl => some ((lookupByKey tbl animal_code).getD animal_code)

/-- Python `animal_emoji` (a `.get` with the fox as default). -/
def animal_emoji (animal_code : String) : String :=
  (lookupByKey ANIMAL_EMOJI animal_code).getD "🦊"

/-- Python `get_element_display_name` from `utils_animals.py`. -/
def get_element_display_name (element_code lang : String) (ruCase : Option String) : String :=
  if lang == "ru" then
    if ruCase == some "genitive_for_archetype_line" then
      (lookupByKey elementLabelsRu element_code).getD element_code
    else element_code
  else
    (lookupByKey ((ELEMENT_LABELS lang).getD elementLabelsRu) element_code).getD element_code

/-! ## Archetype resolver (`main.py` lines 367-400, `ai.py` lines 112-174) -/

/-- HTTP-style error carried by a raised `HTTPException`. -/
structure HttpError where
  status : Nat
  detail : String
deriving Repr, DecidableEq

/-- Resolved archetype triple. -/
structure Codes where
  animal : String
  element : String
  genderForm : String
deriving Repr, DecidableEq

/-- Python `normalize_locked_element` from `main.py`: accept a canonical
element code, otherwise search the label maps for the request language, then
Russian, then every language, returning the canonical code. -/
def normalize_locked_element (locked_element lang : String) : Option String :=
  if ALLOWED_ELEMENTS.contains locked_element then some locked_element
  else
    match findInLabelMaps [(ELEMENT_LABELS lang).getD [], elementLabelsRu] locked_element with
    | some code => some code
    | none => findInLabelMaps elementLabelsAll locked_element

/-- Python `resolve_locked_codes` from `main.py`: `ok none` when the locked
triple is not fully supplied (Python truthiness), a 400 error when the
animal, element or gender-form fails validation, otherwise the triple with
the element normalized to its canonical code. -/
def resolve_locked_codes (locked_animal locked_element locked_gender_form : Option String)
    (lang : String) : Except HttpError (Option Codes) :=
  if ¬(pyTruthy locked_animal ∧ pyTruthy locked_element ∧ pyTruthy locked_gender_form) then
    .ok none
  else
    let a := locked_animal.getD ""
    let e := locked_element.getD ""
    let g := locked_gender_form.getD ""
    if ¬ALLOWED_ANIMALS.contains a then .error ⟨400, "Invalid lockedAnimal"⟩
    else
      match normalize_locked_element e lang with
      | none => .error ⟨400, "Invalid lockedElement"⟩
      | some ne =>
        if ¬ALLOWED_ELEMENTS.contains ne then .error ⟨400, "Invalid lockedElement"⟩
        else if ¬ALLOWED_GENDERS.contains g then .error ⟨400, "Invalid lockedGenderForm"⟩
        else .ok (some ⟨a, ne, g⟩)

/-- Fields of the JSON object parsed out of the generation-service output in
`run_short_analysis` (`data.get("animal")` and friends; a missing key is
`none`). -/
structure GenCodesOutput where
  animal : Option String
  element : Option String
  genderForm : Option String
deriving Repr, DecidableEq

/-- Python `repr` of an optional string as interpolated into the
`ValueError` messages of `run_short_analysis`. -/
def optShow : Option String → String
  | none => "None"
  | some s => s

/-- Validation portion of Python `run_short_analysis` (`ai.py` lines
156-174): hard-reject an out-of-enum animal or element, silently coerce an
out-of-enum gender-form to "unspecified" (a missing gender-form defaults to
"unspecified" via `data.get`). -/
def run_short_analysis_validate (data : GenCodesOutput) : Except String Codes :=
  let animal := data.animal
  let element := data.element
  let gender_form := data.genderForm.getD "unspecified"
  match animal with
  | none => .error ("Invalid animal: " ++ optShow animal)
  | some a =>
    if ¬ALLOWED_ANIMALS.contains a then .error ("Invalid animal: " ++ optShow animal)
    else
      match element with
      | none => .error ("Invalid element: " ++ optShow element)
      | some e =>
        if ¬ALLOWED_ELEMENTS.contains e then .error ("Invalid element: " ++ optShow element)
        else
          .ok ⟨a, e, if ALLOWED_GENDERS.contains gender_form then gender_form else "unspecified"⟩

/-- Archetype-resolution step of `analyze_short` (`main.py` lines 854-871
with the catch-all of lines 964-969): use the locked triple when fully
supplied, otherwise invoke the generation service (the oracle `gen`) and
validate its parsed output; the second component records whether the
generation service was invoked. Validation failures surface as 500 errors
through the handler's generic `except`. -/
def analyze_short_codes (lockedAnimal lockedElement lockedGenderForm : Option String)
    (lang : String) (gen : Except String GenCodesOutput) :
    Except HttpError Codes × Bool :=
  match resolve_locked_codes lockedAnimal lockedElement lockedGenderForm lang with
  | .error e => (.error e, false)
  | .ok (some codes) => (.ok codes, false)
  | .ok none =>
    match gen with
    | .error e => (.error ⟨500, e⟩, true)
    | .ok data =>
      match run_short_analysis_validate data with
      | .error e => (.error ⟨500, e⟩, true)
      | .ok codes => (.ok codes, true)

/-! ## Data model (`models.py`) -/

/-- Row of the `users` table (`models.py` plus the `full_bonus_awarded`
column added by `_ensure_user_schema` in `main.py`); `auth_token`,
`google_sub` and timestamps are transport/identity details not modelled. -/
structure UserRow where
  id : Nat
  email : Option String
  telegram : Option String
  name : String
  lang : String
  has_full : Bool
  full_bonus_awarded : Bool
  packs_bought : Int
  compat_credits : Int
deriving Repr, DecidableEq

/-- Row of the `user_results` table (primary key `user_id`). -/
structure UserResultRow where
  user_id : Nat
  animal_code : String
  element_ru : String
  genderForm : String
  short_text : String
  full_text : Option String
deriving Repr, DecidableEq

/-- Row of the `compat_reports` table; `models.py` declares unique
constraints on `(user_low_id, user_high_id, prompt_version)` and on
`request_id`. -/
structure CompatReportRow where
  id : Nat
  user_low_id : Nat
  user_high_id : Nat
  language : String
  prompt_version : String
  status : String
  text : String
  request_id : Option String
deriving Repr, DecidableEq

/-- Row of the `invites` table; unique constraints on `request_id` and on
`token`. -/
structure InviteRow where
  id : Nat
  token : String
  inviter_id : Nat
  invitee_id : Option Nat
  prompt_version : String
  credit_spent : Bool
  credit_refunded : Bool
  status : String
  request_id : Option String
deriving Repr, DecidableEq

/-- Modelled from the spec: the `PackPurchase` ORM class is imported from
`models.py` by `main.py` but missing from the `models.py` under `src/`; per
the spec it is an "idempotency record for a credit-pack purchase, keyed by
unique `requestId`", and the handler stores the purchasing user and the pack
size. -/
structure PackPurchaseRow where
  user_id : Nat
  pack_size : Int
  request_id : Option String
deriving Repr, DecidableEq

/-- The database state: one list per table, plus autoincrement counters. -/
structure DB where
  users : List UserRow
  results : List UserResultRow
  reports : List CompatReportRow
  invites : List InviteRow
  purchases : List PackPurchaseRow
  nextUserId : Nat
  nextReportId : Nat
  nextInviteId : Nat
deriving Repr, DecidableEq

/-- Look a user row up by id (`session.get(User, uid)`; bearer-token
resolution in `get_current_user` is modelled as this lookup). -/
def findUser (users : List UserRow) (uid : Nat) : Option UserRow :=
  users.find? (fun u => u.id == uid)

/-- Look a result row up by user id (`session.get(UserResult, uid)`). -/
def findResult (results : List UserResultRow) (uid : Nat) : Option UserResultRow :=
  results.find? (fun r => r.user_id == uid)

/-- The existence query of `compatibility_check` (`main.py` lines
1793-1800): match on pair key, prompt version and language. -/
def findReportByPairLang (reports : List CompatReportRow)
    (low high : Nat) (pv lang : String) : Option CompatReportRow :=
  reports.find? (fun r =>
    r.user_low_id == low && r.user_high_id == high &&
    r.prompt_version == pv && r.language == lang)

/-- The recovery/invite query on pair key and prompt version only
(`main.py` lines 1847-1852, 1973-1978, 2001-2007). -/
def findReportByPair (reports : List CompatReportRow)
    (low high : Nat) (pv : String) : Option CompatReportRow :=
  reports.find? (fun r =>
    r.user_low_id == low && r.user_high_id == high && r.prompt_version == pv)

/-- The `requestId` replay query of `compatibility_check` (`main.py` lines
1762-1769): a report carrying the request id with the caller on either side
of the pair. -/
def findReportByRequest (reports : List CompatReportRow)
    (userId : Nat) (rid : String) : Option CompatReportRow :=
  reports.find? (fun r =>
    r.request_id == some rid && (r.user_low_id == userId || r.user_high_id == userId))

/-- Replay lookup guarded by Python truthiness of `payload.requestId`. -/
def replayLookup (reports : List CompatReportRow) (userId : Nat)
    (requestId : Option String) : Option CompatReportRow :=
  match requestId with
  | none => none
  | some rid => if pyStrTruthy rid then findReportByRequest reports userId rid else none

/-- ORM-object mutation plus commit: rewrite the user row(s) with this id. -/
def updateUser (users : List UserRow) (uid : Nat) (f : UserRow → UserRow) : List UserRow :=
  users.map (fun u => if u.id == uid then f u else u)

/-- Mutation of a report row by primary key (status and text only, as in
`compatibility_accept_invite`). -/
def updateReportRow (reports : List CompatReportRow) (rid : Nat)
    (status text : String) : List CompatReportRow :=
  reports.map (fun r => if r.id == rid then { r with status := status, text := text } else r)

/-- Mutation of an invite row by primary key. -/
def updateInviteRow (invites : List InviteRow) (iid : Nat)
    (f : InviteRow → InviteRow) : List InviteRow :=
  invites.map (fun i => if i.id == iid then f i else i)

/-- Whether inserting `r` violates a `compat_reports` unique constraint
(`models.py` lines 107-110): `(user_low_id, user_high_id, prompt_version)`
or a duplicated non-null `request_id`. The database raising
`IntegrityError` on such an insert is the handler's `except` branch. -/
def reportInsertConflict (reports : List CompatReportRow) (r : CompatReportRow) : Bool :=
  reports.any (fun x =>
    x.user_low_id == r.user_low_id && x.user_high_id == r.user_high_id &&
    x.prompt_version == r.prompt_version) ||
  (match r.request_id with
   | some rid => reports.any (fun x => x.request_id == some rid)
   | none => false)

/-- Whether inserting an invite violates its unique constraints
(`request_id` from `__table_args__`, `token` from the column). -/
def inviteInsertConflict (invites : List InviteRow) (i : InviteRow) : Bool :=
  (match i.request_id with
   | some rid => invites.any (fun x => x.request_id == some rid)
   | none => false) ||
  invites.any (fun x => x.token == i.token)

/-! ## Compatibility payload and post-processing (`main.py`) -/

/-- Python `build_compatibility_payload` (`main.py` lines 553-611); `none`
models the `KeyError` an unknown animal code raises inside
`get_animal_display_name` for Russian display names. -/
def build_compatibility_payload (lang : String) (a_result : UserResultRow)
    (b_result : Option UserResultRow) (a_name b_name : String) : Option String :=
  match get_animal_display_name a_result.animal_code lang a_result.genderForm with
  | none => none
  | some a_animal_display =>
    let a_element_display := get_element_display_name a_result.element_ru lang none
    let a_full := pyOrOpt a_result.full_text (pyOr a_result.short_text "NOT_PROVIDED")
    let a_emoji := animal_emoji a_result.animal_code
    let bParts : Option (String × String × String × String) :=
      match b_result with
      | some br =>
        match get_animal_display_name br.animal_code lang br.genderForm with
        | none => none
        | some b_animal_display =>
          some (b_animal_display,
                get_element_display_name br.element_ru lang none,
                pyOrOpt br.full_text (pyOr br.short_text "NOT_PROVIDED"),
                animal_emoji br.animal_code)
      | none => some ("НЕИЗВЕСТНО", "неизвестно", "(нет данных)", animal_emoji "Fox")
    match bParts with
    | none => none
    | some (b_animal_display, b_element_display, b_full, b_emoji) =>
      let language_tag := pyUpper lang
      let line_a := a_emoji ++ " " ++ a_name ++ " — " ++ a_animal_display ++ " " ++ a_element_display
      let line_b := b_emoji ++ " " ++ b_name ++ " — " ++ b_animal_display ++ " " ++ b_element_display
      some (pyStrip
        ("\nLANGUAGE: " ++ language_tag ++
         "\nLINE_A: " ++ line_a ++
         "\nLINE_B: " ++ line_b ++
         "\n\nЧеловек A:\nИмя: " ++ a_name ++
         "\nАрхетип: " ++ a_animal_display ++ " " ++ a_element_display ++
         "\nОтветы:\n" ++ a_full ++
         "\n\nЧеловек B:\nИмя: " ++ b_name ++
         "\nАрхетип: " ++ b_animal_display ++ " " ++ b_element_display ++
         "\nОтветы:\n" ++ b_full ++ "\n"))

/-- Python `strip_prompt_echo` (`main.py` lines 751-766): trim, drop
everything before the first occurrence of `line_a`, then remove echoed
`LINE_A: `/`LINE_B: ` prefixes from the first two lines. -/
def strip_prompt_echo (text line_a line_b : String) : String :=
  let stripped := pyStrip text
  if stripped = "" then stripped
  else
    let stripped :=
      match findSubstrIdx stripped.data line_a.data 0 with
      | none => stripped
      | some i => String.mk (stripped.data.drop i)
    let lines := pySplitLines stripped
    let lines :=
      match lines with
      | [] => []
      | l0 :: rest =>
        let l0 := if pyStartsWith l0 "LINE_A: " then replaceFirst l0 "LINE_A: " else l0
        match rest with
        | [] => [l0]
        | l1 :: rest2 =>
          (l0 :: (if pyStartsWith l1 "LINE_B: " then replaceFirst l1 "LINE_B: " else l1) :: rest2)
    let cleaned := joinLines lines
    if lines.take 2 == [line_a, line_b] then cleaned else cleaned

/-- Extraction of `line_a`/`line_b` from the payload (`main.py` lines
1813-1815): Python indexes `payload_lines[1]` and `payload_lines[2]`, always
present by construction of the payload. -/
def payloadLineA (payloadText : String) : String :=
  replaceFirst ((pySplitLines payloadText).getD 1 "") "LINE_A: "

/-- Second marker line of the payload (see `payloadLineA`). -/
def payloadLineB (payloadText : String) : String :=
  replaceFirst ((pySplitLines payloadText).getD 2 "") "LINE_B: "

/-! ## Responses -/

/-- Python `serialize_report` output (`main.py` lines 708-748), restricted
to the data-bearing fields; timestamps and the counterpart display payload
are presentation details not modelled. -/
structure ReportResponse where
  id : Nat
  reportId : Nat
  other_user_id : Nat
  lang : String
  prompt_version : String
  status : String
  text : String
deriving Repr, DecidableEq

/-- Python `serialize_report`. -/
def serialize_report (report : CompatReportRow) (current_user_id : Nat) : ReportResponse :=
  { id := report.id
    reportId := report.id
    other_user_id :=
      if report.user_low_id == current_user_id then report.user_high_id else report.user_low_id
    lang := pyOr report.language "ru"
    prompt_version := report.prompt_version
    status := pyOr report.status "ready"
    text := report.text }

/-- Decidable equality for `Except` results, used by the concrete witness
evaluations. -/
instance exceptDecidableEq {α β : Type} [DecidableEq α] [DecidableEq β] :
    DecidableEq (Except α β)
  | .error a, .error b =>
    if h : a = b then .isTrue (by rw [h]) else .isFalse (by intro hc; cases hc; exact h rfl)
  | .error _, .ok _ => .isFalse (by intro hc; cases hc)
  | .ok _, .error _ => .isFalse (by intro hc; cases hc)
  | .ok a, .ok b =>
    if h : a = b then .isTrue (by rw [h]) else .isFalse (by intro hc; cases hc; exact h rfl)

/-- Outcome of a `compatibility_check` call: the HTTP response, the
post-transaction database, and whether the generation service was invoked. -/
structure CheckOutcome where
  response : Except HttpError ReportResponse
  db : DB
  genCalled : Bool
deriving Repr, DecidableEq

/-- Recovery branch of `compatibility_check` after an `IntegrityError`
(`main.py` lines 1833-1872): the transaction is rolled back (the returned
database is the pre-call one), then the winning row is looked up by pair
plus language, by pair alone, then by request id, else a 409. -/
def checkIntegrityRecovery (db : DB) (userId low high : Nat)
    (reportLanguage : String) (requestId : Option String) (genCalled : Bool) : CheckOutcome :=
  match findReportByPairLang db.reports low high COMPAT_PROMPT_VERSION reportLanguage with
  | some existing => ⟨.ok (serialize_report existing userId), db, genCalled⟩
  | none =>
    match findReportByPair db.reports low high COMPAT_PROMPT_VERSION with
    | some existing => ⟨.ok (serialize_report existing userId), db, genCalled⟩
    | none =>
      match replayLookup db.reports userId requestId with
      | some existing => ⟨.ok (serialize_report existing userId), db, genCalled⟩
      | none => ⟨.error ⟨409, "Compatibility already exists"⟩, db, genCalled⟩

/-- Python `compatibility_check` (`main.py` lines 1746-1874). The `gen`
oracle stands for `generate_compatibility_text` (its `.error` is the client
raising, which aborts the transaction and surfaces as a 500). -/
def compatibility_check (db : DB) (callerId targetUserId : Nat) (lang : String)
    (requestId : Option String) (gen : Except String String) : CheckOutcome :=
  match findUser db.users callerId with
  | none => ⟨.error ⟨401, "Invalid auth token"⟩, db, false⟩
  | some user =>
    match replayLookup db.reports user.id requestId with
    | some existing => ⟨.ok (serialize_report existing user.id), db, false⟩
    | none =>
      match findUser db.users targetUserId with
      | none => ⟨.error ⟨404, "Target user not found"⟩, db, false⟩
      | some target =>
        if target.id == user.id then ⟨.error ⟨400, "Cannot compare same user"⟩, db, false⟩
        else
          match findResult db.results user.id with
          | none => ⟨.error ⟨400, "Complete test first"⟩, db, false⟩
          | some a_result =>
            let b_result := findResult db.results target.id
            let user_low_id := min user.id target.id
            let user_high_id := max user.id target.id
            let report_language := pyOr (pyOr lang user.lang) "ru"
            match findReportByPairLang db.reports user_low_id user_high_id
                COMPAT_PROMPT_VERSION report_language with
            | some existing => ⟨.ok (serialize_report existing user.id), db, false⟩
            | none =>
              if user.compat_credits ≤ 0 then ⟨.error ⟨402, "NO_COMPAT_CREDITS"⟩, db, false⟩
              else
                match build_compatibility_payload report_language a_result b_result
                    user.name target.name with
                | none => ⟨.error ⟨500, "KeyError"⟩, db, false⟩
                | some payload_text =>
                  match gen with
                  | .error e => ⟨.error ⟨500, e⟩, db, true⟩
                  | .ok raw =>
                    let text :=
                      strip_prompt_echo raw (payloadLineA payload_text) (payloadLineB payload_text)
                    let report : CompatReportRow :=
                      { id := db.nextReportId
                        user_low_id := user_low_id
                        user_high_id := user_high_id
                        language := report_language
                        prompt_version := COMPAT_PROMPT_VERSION
                        status := "ready"
                        text := text
                        request_id := requestId }
                    if reportInsertConflict db.reports report then
                      checkIntegrityRecovery db user.id user_low_id user_high_id
                        report_language requestId true
                    else
                      ⟨.ok (serialize_report report user.id),
                       { db with
                          reports := db.reports ++ [report]
                          users := updateUser db.users user.id (fun u =>
                            { u with compat_credits := clamp_credits (u.compat_credits - 1) })
                          nextReportId := db.nextReportId + 1 },
                       true⟩

/-! ## Invite flow (`main.py` lines 1877-2061) -/

/-- Python `CompatibilityInviteResponse` (`schemas.py`), without the
timestamp. -/
structure InviteResponse where
  token : String
  status : String
  prompt_version : String
deriving Repr, DecidableEq

/-- Outcome of a `compatibility_invite` call. -/
structure InviteOutcome where
  response : Except HttpError InviteResponse
  db : DB
deriving Repr, DecidableEq

/-- The invite replay query (`main.py` lines 1889-1895): an invite carrying
the request id created by this inviter. -/
def findInviteByRequest (invites : List InviteRow) (inviterId : Nat)
    (requestId : Option String) : Option InviteRow :=
  match requestId with
  | none => none
  | some rid =>
    if pyStrTruthy rid then
      invites.find? (fun i => i.request_id == some rid && i.inviter_id == inviterId)
    else none

/-- Python `compatibility_invite` (`main.py` lines 1877-1950). `freshToken`
stands for the `uuid.uuid4().hex` the handler mints. -/
def compatibility_invite (db : DB) (callerId : Nat)
    (email telegram requestId : Option String) (freshToken : String) : InviteOutcome :=
  if ¬pyTruthy email ∧ ¬pyTruthy telegram then
    ⟨.error ⟨400, "Email or telegram required"⟩, db⟩
  else
    match findUser db.users callerId with
    | none => ⟨.error ⟨401, "Invalid auth token"⟩, db⟩
    | some user =>
      match findInviteByRequest db.invites user.id requestId with
      | some existing => ⟨.ok ⟨existing.token, existing.status, existing.prompt_version⟩, db⟩
      | none =>
        match db.users.find? (fun u => u.email == email || u.telegram == telegram) with
        | some _ => ⟨.error ⟨409, "Target user already exists"⟩, db⟩
        | none =>
          if user.compat_credits < 1 then ⟨.error ⟨402, "Not enough credits"⟩, db⟩
          else
            let invite : InviteRow :=
              { id := db.nextInviteId
                token := freshToken
                inviter_id := user.id
                invitee_id := none
                prompt_version := COMPAT_PROMPT_VERSION
                credit_spent := true
                credit_refunded := false
                status := "sent"
                request_id := requestId }
            if inviteInsertConflict db.invites invite then
              match findInviteByRequest db.invites user.id requestId with
              | some existing =>
                ⟨.ok ⟨existing.token, existing.status, existing.prompt_version⟩, db⟩
              | none => ⟨.error ⟨409, "Invite already exists"⟩, db⟩
            else
              ⟨.ok ⟨freshToken, "sent", COMPAT_PROMPT_VERSION⟩,
               { db with
                  invites := db.invites ++ [invite]
                  users := updateUser db.users user.id (fun u =>
                    { u with compat_credits := u.compat_credits - 1 })
                  nextInviteId := db.nextInviteId + 1 }⟩

/-- The credit-refund condition of `compatibility_accept_invite` (`main.py`
lines 2022-2028). -/
def refundDue (invite : InviteRow) (inviter : UserRow) : Bool :=
  invite.credit_spent && !invite.credit_refunded &&
    (inviter.has_full || inviter.packs_bought > 0)

/-- Python `compatibility_accept_invite` (`main.py` lines 1953-2061). The
first `commit` (completing the invite, refunding the inviter, inserting a
pending report when none exists for the pair) persists even when the
subsequent generation call fails, in which case the report is marked
`failed` and a 500 is raised. -/
def compatibility_accept_invite (db : DB) (callerId : Nat) (token : String)
    (gen : Except String String) : CheckOutcome :=
  match findUser db.users callerId with
  | none => ⟨.error ⟨401, "Invalid auth token"⟩, db, false⟩
  | some invitee =>
    match db.invites.find? (fun i => i.token == token) with
    | none => ⟨.error ⟨404, "Invite not found"⟩, db, false⟩
    | some invite =>
      if invite.inviter_id == invitee.id then
        ⟨.error ⟨400, "Cannot accept own invite"⟩, db, false⟩
      else if invite.status == "completed" then
        if ¬(invite.invitee_id == some invitee.id) then
          ⟨.error ⟨409, "Invite already used"⟩, db, false⟩
        else
          match findReportByPair db.reports (min invite.inviter_id invitee.id)
              (max invite.inviter_id invitee.id) invite.prompt_version with
          | none => ⟨.error ⟨404, "Report missing"⟩, db, false⟩
          | some existing => ⟨.ok (serialize_report existing invitee.id), db, false⟩
      else if (match invite.invitee_id with
               | some x => !(x == invitee.id)
               | none => false) then
        ⟨.error ⟨409, "Invite already used"⟩, db, false⟩
      else
        match findUser db.users invite.inviter_id with
        | none => ⟨.error ⟨404, "Inviter not found"⟩, db, false⟩
        | some inviter =>
          match findResult db.results invitee.id with
          | none => ⟨.error ⟨400, "Complete test first"⟩, db, false⟩
          | some invitee_result =>
            match findResult db.results inviter.id with
            | none => ⟨.error ⟨400, "Inviter must complete test first"⟩, db, false⟩
            | some inviter_result =>
              let user_low_id := min inviter.id invitee.id
              let user_high_id := max inviter.id invitee.id
              let (report, reportsAfterInsert, nextReportId) :=
                match findReportByPair db.reports user_low_id user_high_id
                    invite.prompt_version with
                | some r => (r, db.reports, db.nextReportId)
                | none =>
                  let r : CompatReportRow :=
                    { id := db.nextReportId
                      user_low_id := user_low_id
                      user_high_id := user_high_id
                      language := invitee.lang
                      prompt_version := invite.prompt_version
                      status := "pending"
                      text := ""
                      request_id := none }
                  (r, db.reports ++ [r], db.nextReportId + 1)
              let db1 : DB :=
                { db with
                    reports := reportsAfterInsert
                    nextReportId := nextReportId
                    invites := updateInviteRow db.invites invite.id (fun i =>
                      { i with invitee_id := some invitee.id, status := "completed",
                               credit_refunded :=
                                 i.credit_refunded || refundDue invite inviter })
                    users :=
                      if refundDue invite inviter then
                        updateUser db.users inviter.id (fun u =>
                          { u with compat_credits := clamp_credits (u.compat_credits + 1) })
                      else db.users }
              if report.status == "ready" then
                ⟨.ok (serialize_report report invitee.id), db1, false⟩
              else
                match build_compatibility_payload invitee.lang inviter_result
                    (some invitee_result) inviter.name invitee.name with
                | none => ⟨.error ⟨500, "KeyError"⟩, db1, false⟩
                | some payload_text =>
                  match gen with
                  | .error e =>
                    ⟨.error ⟨500, e⟩,
                     { db1 with reports := updateReportRow db1.reports report.id "failed" "" },
                     true⟩
                  | .ok raw =>
                    let text :=
                      strip_prompt_echo raw (payloadLineA payload_text) (payloadLineB payload_text)
                    ⟨.ok (serialize_report { report with status := "ready", text := text }
                        invitee.id),
                     { db1 with reports := updateReportRow db1.reports report.id "ready" text },
                     true⟩

/-! ## Credit ledger (`main.py` lines 1283-1359, 1637-1743) -/

/-- Python `UserMeResponse` restricted to its data-bearing fields (the
`compatCredits`/`fullUnlocked` duplicates carry the same values as
`credits`/`hasFull`). -/
structure MeResponse where
  credits : Int
  hasFull : Bool
  userId : Nat
  lang : String
deriving Repr, DecidableEq

/-- Build the `UserMeResponse` payload for a user row. -/
def user_me_response (u : UserRow) : MeResponse :=
  { credits := u.compat_credits, hasFull := u.has_full, userId := u.id, lang := u.lang }

/-- Outcome of a pack-purchase call. -/
structure PurchaseOutcome where
  response : Except HttpError MeResponse
  db : DB
deriving Repr, DecidableEq

/-- Python `compatibility_purchase_pack` (`main.py` lines 1692-1743): replay
of a known `requestId` by the purchasing user returns the current balance
without crediting again; replay by another user is a 409; otherwise the pack
size is added (clamped) and a `PackPurchase` row is recorded when a request
id accompanies the call. -/
def compatibility_purchase_pack (db : DB) (callerId : Nat) (packSize : Int)
    (requestId : Option String) : PurchaseOutcome :=
  match findUser db.users callerId with
  | none => ⟨.error ⟨401, "Invalid auth token"⟩, db⟩
  | some user =>
    let replay :=
      if pyTruthy requestId then db.purchases.find? (fun p => p.request_id == requestId)
      else none
    match replay with
    | some existing_purchase =>
      if ¬(existing_purchase.user_id == user.id) then
        ⟨.error ⟨409, "Request ID already used"⟩, db⟩
      else ⟨.ok (user_me_response user), db⟩
    | none =>
      let user' :=
        { user with
            packs_bought := user.packs_bought + 1
            compat_credits := clamp_credits (user.compat_credits + packSize) }
      ⟨.ok (user_me_response user'),
       { db with
          users := updateUser db.users user.id (fun u =>
            { u with
                packs_bought := u.packs_bought + 1
                compat_credits := clamp_credits (u.compat_credits + packSize) })
          purchases :=
            if pyTruthy requestId then
              db.purchases ++ [{ user_id := user.id, pack_size := packSize,
                                 request_id := requestId }]
            else db.purchases }⟩

/-- Python `purchase_compat_pack` (`main.py` lines 1664-1689), the legacy
fixed-size pack purchase without idempotency. -/
def purchase_compat_pack (db : DB) (callerId : Nat) : PurchaseOutcome :=
  match findUser db.users callerId with
  | none => ⟨.error ⟨401, "Invalid auth token"⟩, db⟩
  | some user =>
    let user' :=
      { user with
          packs_bought := user.packs_bought + 1
          compat_credits := clamp_credits (user.compat_credits + 3) }
    ⟨.ok (user_me_response user'),
     { db with
        users := updateUser db.users user.id (fun u =>
          { u with
              packs_bought := u.packs_bought + 1
              compat_credits := clamp_credits (u.compat_credits + 3) }) }⟩

/-- Python `apply_full_bonus` (`main.py` lines 626-634): grant the full
entitlement and, exactly once per user, a +3 credit bonus. -/
def apply_full_bonus (u : UserRow) : UserRow :=
  if ¬u.full_bonus_awarded then
    { u with
        has_full := true
        full_bonus_awarded := true
        compat_credits := clamp_credits (u.compat_credits + 3) }
  else if ¬u.has_full then { u with has_full := true }
  else u

/-- Python `purchase_full` (`main.py` lines 1637-1661): authenticate and
apply the full bonus. -/
def purchase_full (db : DB) (callerId : Nat) : PurchaseOutcome :=
  match findUser db.users callerId with
  | none => ⟨.error ⟨401, "Invalid auth token"⟩, db⟩
  | some user =>
    ⟨.ok (user_me_response (apply_full_bonus user)),
     { db with users := updateUser db.users user.id apply_full_bonus }⟩

/-! ## Registration (`main.py` lines 1283-1359) -/

/-- Python `ShortResult` payload (`schemas.py`). -/
structure ShortResultPayload where
  animal : String
  element : String
  genderForm : String
  text : String
deriving Repr, DecidableEq

/-- Insert-or-update of a user's result row, as in `register`
(`main.py` lines 1310-1326, 1347-1357): update the archetype fields and the
short text, keep `full_text` on update, `None` on insert. -/
def upsertUserResult (results : List UserResultRow) (uid : Nat)
    (sr : ShortResultPayload) : List UserResultRow :=
  if results.any (fun r => r.user_id == uid) then
    results.map (fun r =>
      if r.user_id == uid then
        { r with animal_code := sr.animal, element_ru := sr.element,
                 genderForm := sr.genderForm, short_text := sr.text }
      else r)
  else
    results ++ [{ user_id := uid, animal_code := sr.animal, element_ru := sr.element,
                  genderForm := sr.genderForm, short_text := sr.text, full_text := none }]

/-- Outcome of a `register` call (the response is reduced to the user id;
the token and credit echo are presentation). -/
structure RegisterOutcome where
  response : Except HttpError Nat
  db : DB
deriving Repr, DecidableEq

/-- Python `register` (`main.py` lines 1283-1359): find users matching the
supplied (truthy) identity keys, fail on an ambiguous merge, update the one
match, or create a new user with 1 starting credit. -/
def register (db : DB) (email telegram name lang : Option String)
    (shortResult : Option ShortResultPayload) : RegisterOutcome :=
  if ¬pyTruthy email ∧ ¬pyTruthy telegram then
    ⟨.error ⟨400, "Email or telegram required"⟩, db⟩
  else
    let existing_users := db.users.filter (fun u =>
      (pyTruthy email && u.email == email) || (pyTruthy telegram && u.telegram == telegram))
    if existing_users.length > 1 then
      ⟨.error ⟨409, "Email and telegram belong to different users"⟩, db⟩
    else
      match existing_users with
      | user :: _ =>
        ⟨.ok user.id,
         { db with
            users := updateUser db.users user.id (fun u =>
              { u with
                  name := if pyTruthy name then name.getD "" else u.name
                  lang := if pyTruthy lang then lang.getD "" else u.lang })
            results :=
              match shortResult with
              | some sr => upsertUserResult db.results user.id sr
              | none => db.results }⟩
      | [] =>
        if ¬pyTruthy name ∨ ¬pyTruthy lang then
          ⟨.error ⟨400, "Name and lang required"⟩, db⟩
        else
          let user : UserRow :=
            { id := db.nextUserId
              email := email
              telegram := telegram
              name := name.getD ""
              lang := lang.getD ""
              has_full := false
              full_bonus_awarded := false
              packs_bought := 0
              compat_credits := clamp_credits 1 }
          ⟨.ok user.id,
           { db with
              users := db.users ++ [user]
              nextUserId := db.nextUserId + 1
              results :=
                match shortResult with
                | some sr => upsertUserResult db.results user.id sr
                | none => db.results }⟩

/-! ## The operations as one step relation -/

/-- One inbound request against the shared state: the operations of the
compatibility engine and the credit ledger. -/
inductive Op where
  | check (callerId targetId : Nat) (lang : String) (requestId : Option String)
      (gen : Except String String)
  | invite (callerId : Nat) (email telegram requestId : Option String) (freshToken : String)
  | acceptInvite (callerId : Nat) (token : String) (gen : Except String String)
  | purchasePack (callerId : Nat) (packSize : Int) (requestId : Option String)
  | purchaseCompatPack (callerId : Nat)
  | purchaseFull (callerId : Nat)
  | registerUser (email telegram name lang : Option String)
      (shortResult : Option ShortResultPayload)

/-- The database reached after serving one request. -/
def step (op : Op) (db : DB) : DB :=
  match op with
  | .check callerId targetId lang requestId gen =>
    (compatibility_check db callerId targetId lang requestId gen).db
  | .invite callerId email telegram requestId freshToken =>
    (compatibility_invite db callerId email telegram requestId freshToken).db
  | .acceptInvite callerId token gen =>
    (compatibility_accept_invite db callerId token gen).db
  | .purchasePack callerId packSize requestId =>
    (compatibility_purchase_pack db callerId packSize requestId).db
  | .purchaseCompatPack callerId => (purchase_compat_pack db callerId).db
  | .purchaseFull callerId => (purchase_full db callerId).db
  | .registerUser email telegram name lang shortResult =>
    (register db email telegram name lang shortResult).db

/-! ## Invariants -/

/-- Compatibility of two report rows with the claimed uniqueness invariant:
they differ on the `(low, high, promptVersion, language)` tuple and do not
share a non-null `request_id`. -/
def reportKeyCompat (a b : CompatReportRow) : Prop :=
  (¬(a.user_low_id = b.user_low_id ∧ a.user_high_id = b.user_high_id ∧
     a.prompt_version = b.prompt_version ∧ a.language = b.language)) ∧
  (a.request_id = none ∨ b.request_id = none ∨ a.request_id ≠ b.request_id)

/-- At most one report per `(low, high, promptVersion, language)` tuple and
at most one per non-null `requestId`. -/
def reportsUnique (l : List CompatReportRow) : Prop := l.Pairwise reportKeyCompat

def creditsNonneg (users : List UserRow) : Prop := ∀ u ∈ users, 0 ≤ u.compat_credits

def idsUnique (users : List UserRow) : Prop := users.Pairwise (fun a b => a.id ≠ b.id)

def usersWF (db : DB) : Prop :=
  idsUnique db.users ∧ ∀ u ∈ db.users, u.id < db.nextUserId


/-! ## Derived states of the check and purchase success paths -/

/-- The report row that the success path of `compatibility_check` inserts. -/
def newCheckReport (db : DB) (ua ut : UserRow) (lang : String) (rid : Option String)
    (g p : String) : CompatReportRow :=
  { id := db.nextReportId
    user_low_id := min ua.id ut.id
    user_high_id := max ua.id ut.id
    language := pyOr (pyOr lang ua.lang) "ru"
    prompt_version := COMPAT_PROMPT_VERSION
    status := "ready"
    text := strip_prompt_echo g (payloadLineA p) (payloadLineB p)
    request_id := rid }

/-- The database state after the success path of `compatibility_check`. -/
def afterCheckCreation (db : DB) (ua ut : UserRow) (lang : String) (rid : Option String)
    (g p : String) : DB :=
  { db with
      reports := db.reports ++ [newCheckReport db ua ut lang rid g p]
      users := updateUser db.users ua.id (fun u =>
        { u with compat_credits := clamp_credits (u.compat_credits - 1) })
      nextReportId := db.nextReportId + 1 }

def wUserA0 : UserRow :=
  { id := 1, email := some "a@x", telegram := none, name := "A", lang := "ru"
    has_full := false, full_bonus_awarded := false, packs_bought := 0, compat_credits := 0 }

def wUserA1 : UserRow := { wUserA0 with compat_credits := 1 }

def wUserB : UserRow :=
  { id := 2, email := some "b@x", telegram := none, name := "B", lang := "ru"
    has_full := false, full_bonus_awarded := false, packs_bought := 0, compat_credits := 1 }

def wResA : UserResultRow :=
  { user_id := 1, animal_code := "Wolf", element_ru := "Воздух", genderForm := "male"
    short_text := "ta", full_text := none }

def wResB : UserResultRow :=
  { user_id := 2, animal_code := "Bear", element_ru := "Огонь", genderForm := "female"
    short_text := "tb", full_text := none }

def wReadyEn : CompatReportRow :=
  { id := 7, user_low_id := 1, user_high_id := 2, language := "en", prompt_version := "v3"
    status := "ready", text := "old", request_id := none }

def wReadyRu : CompatReportRow := { wReadyEn with language := "ru" }

def wFailedEn : CompatReportRow := { wReadyEn with status := "failed", text := "" }

def dbZero : DB :=
  { users := [wUserA0, wUserB], results := [wResA, wResB], reports := [], invites := []
    purchases := [], nextUserId := 3, nextReportId := 1, nextInviteId := 1 }

def dbFresh : DB := { dbZero with users := [wUserA1, wUserB] }

def dbReadyEn : DB := { dbFresh with reports := [wReadyEn], nextReportId := 8 }

def dbRuOnly : DB := { dbFresh with reports := [wReadyRu], nextReportId := 8 }

def dbFailedEn : DB := { dbFresh with reports := [wFailedEn], nextReportId := 8 }


def wPayloadRu : String :=
  (build_compatibility_payload (pyOr (pyOr "ru" wUserA1.lang) "ru") wResA
    (findResult dbFresh.results wUserB.id) wUserA1.name wUserB.name).getD ""

def wCheck1 : CheckOutcome := compatibility_check dbFresh 1 2 "en" none (.ok "GEN")

def wResp1 : ReportResponse :=
  wCheck1.response.toOption.getD ⟨0, 0, 0, "", "", "", ""⟩

def wCheck2 : CheckOutcome := compatibility_check wCheck1.db 2 1 "en" none (.ok "GEN2")

def wResp2 : ReportResponse :=
  wCheck2.response.toOption.getD ⟨0, 0, 0, "", "", "", ""⟩


/-- The database state after a successful pack purchase by `ua`. -/
def afterPackPurchase (db : DB) (ua : UserRow) (packSize : Int) (rid : Option String) : DB :=
  { db with
      users := updateUser db.users ua.id (fun u =>
        { u with
            packs_bought := u.packs_bought + 1
            compat_credits := clamp_credits (u.compat_credits + packSize) })
      purchases :=
        if pyTruthy rid then
          db.purchases ++ [{ user_id := ua.id, pack_size := packSize, request_id := rid }]
        else db.purchases }

/-! ## Fixtures for witnesses -/

/-- An empty database. -/
def emptyDB : DB :=
  { users := [], results := [], reports := [], invites := [], purchases := []
    nextUserId := 1, nextReportId := 1, nextInviteId := 1 }

/-! ## Helper lemmas -/

lemma updateReport_fields (x : CompatReportRow) (rid : Nat) (s t : String) :
    ((if x.id == rid then { x with status := s, text := t } else x) : CompatReportRow).user_low_id
        = x.user_low_id ∧
    ((if x.id == rid then { x with status := s, text := t } else x) : CompatReportRow).user_high_id
        = x.user_high_id ∧
    ((if x.id == rid then { x with status := s, text := t } else x) : CompatReportRow).prompt_version
        = x.prompt_version ∧
    ((if x.id == rid then { x with status := s, text := t } else x) : CompatReportRow).language
        = x.language ∧
    ((if x.id == rid then { x with status := s, text := t } else x) : CompatReportRow).request_id
        = x.request_id := by
  split <;> exact ⟨rfl, rfl, rfl, rfl, rfl⟩

lemma reportsUnique_updateReportRow {l : List CompatReportRow} (rid : Nat) (s t : String)
    (h : reportsUnique l) : reportsUnique (updateReportRow l rid s t) := by
  unfold reportsUnique updateReportRow
  apply List.Pairwise.map _ _ h
  intro a b hab
  obtain ⟨ha1, ha2, ha3, ha4, ha5⟩ := updateReport_fields a rid s t
  obtain ⟨hb1, hb2, hb3, hb4, hb5⟩ := updateReport_fields b rid s t
  constructor
  · rw [ha1, ha2, ha3, ha4, hb1, hb2, hb3, hb4]; exact hab.1
  · rw [ha5, hb5]; exact hab.2

lemma reportsUnique_append_one {l : List CompatReportRow} {r : CompatReportRow}
    (h : reportsUnique l) (hr : ∀ x ∈ l, reportKeyCompat x r) : reportsUnique (l ++ [r]) := by
  unfold reportsUnique at *
  rw [List.pairwise_append]
  refine ⟨h, List.pairwise_singleton _ _, ?_⟩
  intro a ha b hb
  simp only [List.mem_singleton] at hb
  subst hb
  exact hr a ha

lemma no_conflict_compat {l : List CompatReportRow} {r : CompatReportRow}
    (h : reportInsertConflict l r = false) : ∀ x ∈ l, reportKeyCompat x r := by
  unfold reportInsertConflict at h
  rw [Bool.or_eq_false_iff] at h
  obtain ⟨h1, h2⟩ := h
  rw [List.any_eq_false] at h1
  intro x hx
  constructor
  · rintro ⟨e1, e2, e3, _⟩
    exact h1 x hx (by simp [e1, e2, e3])
  · cases hreq : r.request_id with
    | none => exact Or.inr (Or.inl rfl)
    | some rid =>
      rw [hreq] at h2
      rw [List.any_eq_false] at h2
      refine Or.inr (Or.inr ?_)
      intro hcontra
      exact h2 x hx (by simp [hcontra, hreq])

lemma findReportByPair_none_compat {l : List CompatReportRow} {low high : Nat} {pv : String}
    (h : findReportByPair l low high pv = none) {r : CompatReportRow}
    (hlow : r.user_low_id = low) (hhigh : r.user_high_id = high)
    (hpv : r.prompt_version = pv) (hreq : r.request_id = none) :
    ∀ x ∈ l, reportKeyCompat x r := by
  unfold findReportByPair at h
  rw [List.find?_eq_none] at h
  intro x hx
  constructor
  · rintro ⟨e1, e2, e3, _⟩
    exact h x hx (by simp [e1, e2, e3, hlow, hhigh, hpv])
  · exact Or.inr (Or.inl hreq)

lemma clamp_credits_nonneg (v : Int) : 0 ≤ clamp_credits v := le_max_left 0 v

lemma mem_id_eq {users : List UserRow} (huniq : idsUnique users) {u v : UserRow}
    (hu : u ∈ users) (hv : v ∈ users) (hid : v.id = u.id) : v = u := by
  by_contra hne
  exact (List.Pairwise.forall (fun a b hab => Ne.symm hab) huniq) hv hu hne hid

lemma creditsNonneg_updateUser_of {users : List UserRow} {uid : Nat} {f : UserRow → UserRow}
    (hf : ∀ u, 0 ≤ u.compat_credits → 0 ≤ (f u).compat_credits)
    (h : creditsNonneg users) : creditsNonneg (updateUser users uid f) := by
  intro w hw
  unfold updateUser at hw
  obtain ⟨v, hv, heq⟩ := List.mem_map.mp hw
  by_cases hc : (v.id == uid) = true
  · rw [if_pos hc] at heq
    subst heq
    exact hf v (h v hv)
  · rw [if_neg hc] at heq
    subst heq
    exact h v hv

lemma creditsNonneg_updateUser_mem {users : List UserRow} {uid : Nat} {f : UserRow → UserRow}
    {u : UserRow} (huniq : idsUnique users) (hu : u ∈ users) (hid : u.id = uid)
    (hfu : 0 ≤ (f u).compat_credits) (h : creditsNonneg users) :
    creditsNonneg (updateUser users uid f) := by
  intro w hw
  unfold updateUser at hw
  obtain ⟨v, hv, heq⟩ := List.mem_map.mp hw
  by_cases hc : (v.id == uid) = true
  · rw [if_pos hc] at heq
    subst heq
    have hvid : v.id = uid := by simpa using hc
    have hvu : v = u := mem_id_eq huniq hu hv (hvid.trans hid.symm)
    rw [hvu]
    exact hfu
  · rw [if_neg hc] at heq
    subst heq
    exact h v hv

lemma idsUnique_updateUser {users : List UserRow} {uid : Nat} {f : UserRow → UserRow}
    (hf : ∀ u, (f u).id = u.id) (h : idsUnique users) : idsUnique (updateUser users uid f) := by
  unfold idsUnique updateUser at *
  apply List.Pairwise.map _ _ h
  intro a b hab
  by_cases hca : (a.id == uid) = true <;> by_cases hcb : (b.id == uid) = true <;>
    simp only [if_pos, if_neg, hca, hcb, if_true, if_false, hf] <;> exact hab

lemma idsBounded_updateUser {users : List UserRow} {uid n : Nat} {f : UserRow → UserRow}
    (hf : ∀ u, (f u).id = u.id) (h : ∀ u ∈ users, u.id < n) :
    ∀ u ∈ updateUser users uid f, u.id < n := by
  intro w hw
  unfold updateUser at hw
  obtain ⟨v, hv, heq⟩ := List.mem_map.mp hw
  by_cases hc : (v.id == uid) = true
  · rw [if_pos hc] at heq; subst heq; rw [hf]; exact h v hv
  · rw [if_neg hc] at heq; subst heq; exact h v hv

lemma apply_full_bonus_id (u : UserRow) : (apply_full_bonus u).id = u.id := by
  unfold apply_full_bonus
  split
  · rfl
  · split <;> rfl

lemma apply_full_bonus_nonneg (u : UserRow) (h : 0 ≤ u.compat_credits) :
    0 ≤ (apply_full_bonus u).compat_credits := by
  unfold apply_full_bonus
  split
  · exact clamp_credits_nonneg _
  · split <;> exact h

lemma updateUser_wf {db : DB} {uid : Nat} {f : UserRow → UserRow}
    (hfid : ∀ u, (f u).id = u.id) (hwf : usersWF db) :
    usersWF { db with users := updateUser db.users uid f } :=
  ⟨idsUnique_updateUser hfid hwf.1, idsBounded_updateUser hfid hwf.2⟩

lemma check_usersInv (db : DB) (callerId targetId : Nat) (lang : String)
    (requestId : Option String) (gen : Except String String)
    (hwf : usersWF db) (hnn : creditsNonneg db.users) :
    usersWF (compatibility_check db callerId targetId lang requestId gen).db ∧
    creditsNonneg (compatibility_check db callerId targetId lang requestId gen).db.users := by
  unfold compatibility_check checkIntegrityRecovery
  try dsimp only
  repeat' split
  all_goals try exact ⟨hwf, hnn⟩
  exact ⟨⟨idsUnique_updateUser (fun u => rfl) hwf.1, idsBounded_updateUser (fun u => rfl) hwf.2⟩,
         creditsNonneg_updateUser_of (fun u _ => clamp_credits_nonneg _) hnn⟩

lemma invite_usersInv (db : DB) (callerId : Nat) (email telegram requestId : Option String)
    (tok : String) (hwf : usersWF db) (hnn : creditsNonneg db.users) :
    usersWF (compatibility_invite db callerId email telegram requestId tok).db ∧
    creditsNonneg (compatibility_invite db callerId email telegram requestId tok).db.users := by
  unfold compatibility_invite
  try dsimp only
  split
  · exact ⟨hwf, hnn⟩
  split
  · exact ⟨hwf, hnn⟩
  next user hfind =>
    split
    · exact ⟨hwf, hnn⟩
    split
    · exact ⟨hwf, hnn⟩
    split
    · exact ⟨hwf, hnn⟩
    next hcred =>
      split
      · split <;> exact ⟨hwf, hnn⟩
      · unfold findUser at hfind
        have hmem : user ∈ db.users := List.mem_of_find?_eq_some hfind
        refine ⟨⟨idsUnique_updateUser (fun u => rfl) hwf.1,
                 idsBounded_updateUser (fun u => rfl) hwf.2⟩, ?_⟩
        refine creditsNonneg_updateUser_mem hwf.1 hmem rfl ?_ hnn
        have := hnn user hmem
        simp only [not_lt] at hcred
        dsimp only
        omega

lemma accept_usersInv (db : DB) (callerId : Nat) (token : String)
    (gen : Except String String) (hwf : usersWF db) (hnn : creditsNonneg db.users) :
    usersWF (compatibility_accept_invite db callerId token gen).db ∧
    creditsNonneg (compatibility_accept_invite db callerId token gen).db.users := by
  unfold compatibility_accept_invite
  try dsimp only
  repeat' split
  all_goals try exact ⟨hwf, hnn⟩
  all_goals
    exact ⟨⟨idsUnique_updateUser (fun u => rfl) hwf.1, idsBounded_updateUser (fun u => rfl) hwf.2⟩,
           creditsNonneg_updateUser_of (fun u _ => clamp_credits_nonneg _) hnn⟩

lemma ppack_usersInv (db : DB) (callerId : Nat) (packSize : Int) (requestId : Option String)
    (hwf : usersWF db) (hnn : creditsNonneg db.users) :
    usersWF (compatibility_purchase_pack db callerId packSize requestId).db ∧
    creditsNonneg (compatibility_purchase_pack db callerId packSize requestId).db.users := by
  unfold compatibility_purchase_pack
  try dsimp only
  repeat' split
  all_goals try exact ⟨hwf, hnn⟩
  all_goals
    exact ⟨⟨idsUnique_updateUser (fun u => rfl) hwf.1, idsBounded_updateUser (fun u => rfl) hwf.2⟩,
           creditsNonneg_updateUser_of (fun u _ => clamp_credits_nonneg _) hnn⟩

lemma pcompat_usersInv (db : DB) (callerId : Nat)
    (hwf : usersWF db) (hnn : creditsNonneg db.users) :
    usersWF (purchase_compat_pack db callerId).db ∧
    creditsNonneg (purchase_compat_pack db callerId).db.users := by
  unfold purchase_compat_pack
  try dsimp only
  repeat' split
  all_goals try exact ⟨hwf, hnn⟩
  all_goals
    exact ⟨⟨idsUnique_updateUser (fun u => rfl) hwf.1, idsBounded_updateUser (fun u => rfl) hwf.2⟩,
           creditsNonneg_updateUser_of (fun u _ => clamp_credits_nonneg _) hnn⟩

lemma pfull_usersInv (db : DB) (callerId : Nat)
    (hwf : usersWF db) (hnn : creditsNonneg db.users) :
    usersWF (purchase_full db callerId).db ∧
    creditsNonneg (purchase_full db callerId).db.users := by
  unfold purchase_full
  try dsimp only
  repeat' split
  all_goals try exact ⟨hwf, hnn⟩
  all_goals
    exact ⟨⟨idsUnique_updateUser apply_full_bonus_id hwf.1,
            idsBounded_updateUser apply_full_bonus_id hwf.2⟩,
           creditsNonneg_updateUser_of apply_full_bonus_nonneg hnn⟩

lemma register_new_user_inv {db : DB} {u : UserRow} (hid : u.id = db.nextUserId)
    (hcred : 0 ≤ u.compat_credits) (hwf : usersWF db) (hnn : creditsNonneg db.users) :
    (idsUnique (db.users ++ [u]) ∧ ∀ v ∈ db.users ++ [u], v.id < db.nextUserId + 1) ∧
    creditsNonneg (db.users ++ [u]) := by
  refine ⟨⟨?_, ?_⟩, ?_⟩
  · unfold idsUnique at *
    rw [List.pairwise_append]
    refine ⟨hwf.1, List.pairwise_singleton _ _, ?_⟩
    intro a ha b hb
    simp only [List.mem_singleton] at hb
    subst hb
    have := hwf.2 a ha
    omega
  · intro v hv
    rcases List.mem_append.mp hv with h1 | h2
    · have := hwf.2 v h1
      omega
    · simp only [List.mem_singleton] at h2
      subst h2
      omega
  · intro v hv
    rcases List.mem_append.mp hv with h1 | h2
    · exact hnn v h1
    · simp only [List.mem_singleton] at h2
      subst h2
      exact hcred

lemma register_usersInv (db : DB) (email telegram name lang : Option String)
    (sr : Option ShortResultPayload)
    (hwf : usersWF db) (hnn : creditsNonneg db.users) :
    usersWF (register db email telegram name lang sr).db ∧
    creditsNonneg (register db email telegram name lang sr).db.users := by
  unfold register
  try dsimp only
  repeat' split
  all_goals try exact ⟨hwf, hnn⟩
  all_goals
    try exact
      ⟨⟨idsUnique_updateUser (fun u => rfl) hwf.1, idsBounded_updateUser (fun u => rfl) hwf.2⟩,
       creditsNonneg_updateUser_of (fun u hu => hu) hnn⟩
  all_goals exact register_new_user_inv rfl (clamp_credits_nonneg _) hwf hnn


lemma ppack_reports (db : DB) (c : Nat) (s : Int) (r : Option String) :
    (compatibility_purchase_pack db c s r).db.reports = db.reports := by
  unfold compatibility_purchase_pack
  try dsimp only
  repeat' split
  all_goals rfl

lemma pcompat_reports (db : DB) (c : Nat) :
    (purchase_compat_pack db c).db.reports = db.reports := by
  unfold purchase_compat_pack
  try dsimp only
  repeat' split
  all_goals rfl

lemma pfull_reports (db : DB) (c : Nat) :
    (purchase_full db c).db.reports = db.reports := by
  unfold purchase_full
  try dsimp only
  repeat' split
  all_goals rfl

lemma register_reports (db : DB) (email telegram name lang : Option String)
    (sr : Option ShortResultPayload) :
    (register db email telegram name lang sr).db.reports = db.reports := by
  unfold register
  try dsimp only
  repeat' split
  all_goals rfl

lemma invite_reports (db : DB) (c : Nat) (email telegram requestId : Option String)
    (tok : String) :
    (compatibility_invite db c email telegram requestId tok).db.reports = db.reports := by
  unfold compatibility_invite
  try dsimp only
  repeat' split
  all_goals rfl

/-- Report uniqueness is preserved by `compatibility_check`. -/
lemma check_reportsUnique (db : DB) (callerId targetId : Nat) (lang : String)
    (requestId : Option String) (gen : Except String String)
    (h : reportsUnique db.reports) :
    reportsUnique (compatibility_check db callerId targetId lang requestId gen).db.reports := by
  unfold compatibility_check checkIntegrityRecovery
  dsimp only
  repeat' split
  all_goals try exact h
  next hcond =>
    rw [Bool.not_eq_true] at hcond
    exact reportsUnique_append_one h (no_conflict_compat hcond)

/-- Report uniqueness is preserved by `compatibility_accept_invite`. -/
lemma accept_reportsUnique (db : DB) (callerId : Nat) (token : String)
    (gen : Except String String) (h : reportsUnique db.reports) :
    reportsUnique (compatibility_accept_invite db callerId token gen).db.reports := by
  unfold compatibility_accept_invite
  dsimp only
  repeat' split
  all_goals try exact h
  all_goals try (apply reportsUnique_updateReportRow)
  all_goals try exact h
  all_goals
    first
    | exact h
    | (refine reportsUnique_append_one h (findReportByPair_none_compat ?_ rfl rfl rfl rfl)
       assumption)


/-! ## Helper lemmas for symbolic runs of the operations -/

lemma findUser_id {users : List UserRow} {uid : Nat} {u : UserRow}
    (h : findUser users uid = some u) : u.id = uid := by
  unfold findUser at h
  have := List.find?_some h
  simpa using this

lemma replayLookup_none_rid (reports : List CompatReportRow) (uid : Nat) :
    replayLookup reports uid none = none := rfl

lemma findUser_updateUser {users : List UserRow} {uid a : Nat} {f : UserRow → UserRow}
    (hf : ∀ u, (f u).id = u.id) :
    findUser (updateUser users uid f) a =
      (findUser users a).map (fun u => if u.id == uid then f u else u) := by
  unfold findUser updateUser
  rw [List.find?_map]
  have hp : ((fun u : UserRow => u.id == a) ∘ fun u => if (u.id == uid) = true then f u else u)
      = fun u : UserRow => u.id == a := by
    funext u
    by_cases hc : (u.id == uid) = true <;> simp [Function.comp, hc, hf]
  rw [hp]

lemma findReportByPair_none_lang {l : List CompatReportRow} {low high : Nat} {pv lang : String}
    (h : findReportByPair l low high pv = none) :
    findReportByPairLang l low high pv lang = none := by
  unfold findReportByPair at h
  unfold findReportByPairLang
  rw [List.find?_eq_none] at *
  intro x hx hc
  apply h x hx
  simp only [Bool.and_eq_true] at hc ⊢
  exact hc.1


lemma recovery_genCalled (db : DB) (uid low high : Nat) (lang : String)
    (rid : Option String) (g : Bool) :
    (checkIntegrityRecovery db uid low high lang rid g).genCalled = g := by
  unfold checkIntegrityRecovery
  repeat' split
  all_goals rfl

lemma recovery_db (db : DB) (uid low high : Nat) (lang : String)
    (rid : Option String) (g : Bool) :
    (checkIntegrityRecovery db uid low high lang rid g).db = db := by
  unfold checkIntegrityRecovery
  repeat' split
  all_goals rfl

lemma check_cache_hit (db : DB) (a t : Nat) (lang : String) (rid : Option String)
    (gen : Except String String) (ua ut : UserRow) (ar : UserResultRow) (r : CompatReportRow)
    (hu : findUser db.users a = some ua)
    (hrid : replayLookup db.reports ua.id rid = none)
    (ht : findUser db.users t = some ut) (hne : ut.id ≠ ua.id)
    (har : findResult db.results ua.id = some ar)
    (hkey : findReportByPairLang db.reports (min ua.id ut.id) (max ua.id ut.id)
      COMPAT_PROMPT_VERSION (pyOr (pyOr lang ua.lang) "ru") = some r) :
    compatibility_check db a t lang rid gen = ⟨.ok (serialize_report r ua.id), db, false⟩ := by
  unfold compatibility_check
  rw [hu]
  simp only [hrid, ht, beq_iff_eq, if_neg hne, har, hkey]

lemma check_insufficient (db : DB) (a t : Nat) (lang : String) (rid : Option String)
    (gen : Except String String) (ua ut : UserRow) (ar : UserResultRow)
    (hu : findUser db.users a = some ua)
    (hrid : replayLookup db.reports ua.id rid = none)
    (ht : findUser db.users t = some ut) (hne : ut.id ≠ ua.id)
    (har : findResult db.results ua.id = some ar)
    (hkey : findReportByPairLang db.reports (min ua.id ut.id) (max ua.id ut.id)
      COMPAT_PROMPT_VERSION (pyOr (pyOr lang ua.lang) "ru") = none)
    (hcred : ua.compat_credits ≤ 0) :
    compatibility_check db a t lang rid gen =
      ⟨.error ⟨402, "NO_COMPAT_CREDITS"⟩, db, false⟩ := by
  unfold compatibility_check
  rw [hu]
  simp only [hrid, ht, beq_iff_eq, if_neg hne, har, hkey, if_pos hcred]

lemma check_payload_keyerror (db : DB) (a t : Nat) (lang : String) (rid : Option String)
    (gen : Except String String) (ua ut : UserRow) (ar : UserResultRow)
    (hu : findUser db.users a = some ua)
    (hrid : replayLookup db.reports ua.id rid = none)
    (ht : findUser db.users t = some ut) (hne : ut.id ≠ ua.id)
    (har : findResult db.results ua.id = some ar)
    (hkey : findReportByPairLang db.reports (min ua.id ut.id) (max ua.id ut.id)
      COMPAT_PROMPT_VERSION (pyOr (pyOr lang ua.lang) "ru") = none)
    (hcred : ¬ua.compat_credits ≤ 0)
    (hpayload : build_compatibility_payload (pyOr (pyOr lang ua.lang) "ru") ar
      (findResult db.results ut.id) ua.name ut.name = none) :
    compatibility_check db a t lang rid gen = ⟨.error ⟨500, "KeyError"⟩, db, false⟩ := by
  unfold compatibility_check
  rw [hu]
  simp only [hrid, ht, beq_iff_eq, if_neg hne, har, hkey, if_neg hcred, hpayload]

lemma check_gen_error (db : DB) (a t : Nat) (lang : String) (rid : Option String)
    (e : String) (ua ut : UserRow) (ar : UserResultRow) (p : String)
    (hu : findUser db.users a = some ua)
    (hrid : replayLookup db.reports ua.id rid = none)
    (ht : findUser db.users t = some ut) (hne : ut.id ≠ ua.id)
    (har : findResult db.results ua.id = some ar)
    (hkey : findReportByPairLang db.reports (min ua.id ut.id) (max ua.id ut.id)
      COMPAT_PROMPT_VERSION (pyOr (pyOr lang ua.lang) "ru") = none)
    (hcred : ¬ua.compat_credits ≤ 0)
    (hpayload : build_compatibility_payload (pyOr (pyOr lang ua.lang) "ru") ar
      (findResult db.results ut.id) ua.name ut.name = some p) :
    compatibility_check db a t lang rid (.error e) = ⟨.error ⟨500, e⟩, db, true⟩ := by
  unfold compatibility_check
  rw [hu]
  simp only [hrid, ht, beq_iff_eq, if_neg hne, har, hkey, if_neg hcred, hpayload]

lemma check_creation (db : DB) (a t : Nat) (lang : String) (rid : Option String)
    (g : String) (ua ut : UserRow) (ar : UserResultRow) (p : String)
    (hu : findUser db.users a = some ua)
    (hrid : replayLookup db.reports ua.id rid = none)
    (ht : findUser db.users t = some ut) (hne : ut.id ≠ ua.id)
    (har : findResult db.results ua.id = some ar)
    (hkey : findReportByPairLang db.reports (min ua.id ut.id) (max ua.id ut.id)
      COMPAT_PROMPT_VERSION (pyOr (pyOr lang ua.lang) "ru") = none)
    (hcred : ¬ua.compat_credits ≤ 0)
    (hpayload : build_compatibility_payload (pyOr (pyOr lang ua.lang) "ru") ar
      (findResult db.results ut.id) ua.name ut.name = some p)
    (hconf : reportInsertConflict db.reports (newCheckReport db ua ut lang rid g p) = false) :
    compatibility_check db a t lang rid (.ok g) =
      ⟨.ok (serialize_report (newCheckReport db ua ut lang rid g p) ua.id),
       afterCheckCreation db ua ut lang rid g p, true⟩ := by
  unfold compatibility_check
  rw [hu]
  simp only [hrid, ht, beq_iff_eq, if_neg hne, har, hkey, if_neg hcred, hpayload]
  rw [show (newCheckReport db ua ut lang rid g p : CompatReportRow) =
    { id := db.nextReportId
      user_low_id := min ua.id ut.id
      user_high_id := max ua.id ut.id
      language := pyOr (pyOr lang ua.lang) "ru"
      prompt_version := COMPAT_PROMPT_VERSION
      status := "ready"
      text := strip_prompt_echo g (payloadLineA p) (payloadLineB p)
      request_id := rid } from rfl] at hconf
  simp only [hconf]
  rfl

lemma check_conflict (db : DB) (a t : Nat) (lang : String) (rid : Option String)
    (g : String) (ua ut : UserRow) (ar : UserResultRow) (p : String)
    (hu : findUser db.users a = some ua)
    (hrid : replayLookup db.reports ua.id rid = none)
    (ht : findUser db.users t = some ut) (hne : ut.id ≠ ua.id)
    (har : findResult db.results ua.id = some ar)
    (hkey : findReportByPairLang db.reports (min ua.id ut.id) (max ua.id ut.id)
      COMPAT_PROMPT_VERSION (pyOr (pyOr lang ua.lang) "ru") = none)
    (hcred : ¬ua.compat_credits ≤ 0)
    (hpayload : build_compatibility_payload (pyOr (pyOr lang ua.lang) "ru") ar
      (findResult db.results ut.id) ua.name ut.name = some p)
    (hconf : reportInsertConflict db.reports (newCheckReport db ua ut lang rid g p) = true) :
    compatibility_check db a t lang rid (.ok g) =
      checkIntegrityRecovery db ua.id (min ua.id ut.id) (max ua.id ut.id)
        (pyOr (pyOr lang ua.lang) "ru") rid true := by
  unfold compatibility_check
  rw [hu]
  simp only [hrid, ht, beq_iff_eq, if_neg hne, har, hkey, if_neg hcred, hpayload]
  rw [show (newCheckReport db ua ut lang rid g p : CompatReportRow) =
    { id := db.nextReportId
      user_low_id := min ua.id ut.id
      user_high_id := max ua.id ut.id
      language := pyOr (pyOr lang ua.lang) "ru"
      prompt_version := COMPAT_PROMPT_VERSION
      status := "ready"
      text := strip_prompt_echo g (payloadLineA p) (payloadLineB p)
      request_id := rid } from rfl] at hconf
  simp only [hconf]
  rfl


lemma insertConflict_false {l : List CompatReportRow} {r : CompatReportRow}
    (hpair : findReportByPair l r.user_low_id r.user_high_id r.prompt_version = none)
    (hreq : ∀ rid, r.request_id = some rid → ∀ x ∈ l, x.request_id ≠ some rid) :
    reportInsertConflict l r = false := by
  unfold reportInsertConflict
  rw [Bool.or_eq_false_iff]
  constructor
  · rw [List.any_eq_false]
    intro x hx hc
    unfold findReportByPair at hpair
    rw [List.find?_eq_none] at hpair
    exact hpair x hx hc
  · cases hr : r.request_id with
    | none => rfl
    | some rid =>
      rw [List.any_eq_false]
      intro x hx hc
      exact hreq rid hr x hx (by simpa using hc)

lemma insertConflict_true_of {l : List CompatReportRow} {r m : CompatReportRow}
    (hm : m ∈ l)
    (h : (m.user_low_id == r.user_low_id && m.user_high_id == r.user_high_id &&
          m.prompt_version == r.prompt_version) = true) :
    reportInsertConflict l r = true := by
  unfold reportInsertConflict
  rw [Bool.or_eq_true]
  left
  rw [List.any_eq_true]
  exact ⟨m, hm, h⟩

lemma replayLookup_none_of_fresh {l : List CompatReportRow} {uid : Nat} {X : String}
    (hX : X ≠ "") (hfresh : ∀ r ∈ l, r.request_id ≠ some X) :
    replayLookup l uid (some X) = none := by
  unfold replayLookup findReportByRequest
  dsimp only
  rw [if_pos (show pyStrTruthy X = true by simp [pyStrTruthy, hX])]
  rw [List.find?_eq_none]
  intro x hx hc
  simp only [Bool.and_eq_true] at hc
  exact hfresh x hx (by simpa using hc.1)

lemma check_replay_hit (db : DB) (c t : Nat) (lang : String) (rid : Option String)
    (gen : Except String String) (u : UserRow) (r : CompatReportRow)
    (hu : findUser db.users c = some u)
    (hr : replayLookup db.reports u.id rid = some r) :
    compatibility_check db c t lang rid gen = ⟨.ok (serialize_report r u.id), db, false⟩ := by
  unfold compatibility_check
  rw [hu]
  simp only [hr]

lemma min_max_self_or (x y : Nat) : ((min x y == x) || (max x y == x)) = true := by
  rcases Nat.le_total x y with h | h
  · simp [Nat.min_eq_left h]
  · simp [Nat.max_eq_left h]

/-- C8: a requester with 0 credits checking a valid, distinct target with no
report under the current pair key gets a 402 payment-required error; the
state is unchanged (no report row, no debit) and the generation service is
not invoked. -/
theorem check_payment_required (db : DB) (a t : Nat) (lang : String)
    (gen : Except String String) (ua ut : UserRow) (ar : UserResultRow)
    (hu : findUser db.users a = some ua) (hcred : ua.compat_credits = 0)
    (ht : findUser db.users t = some ut) (hne : ut.id ≠ ua.id)
    (har : findResult db.results ua.id = some ar)
    (hkey : findReportByPairLang db.reports (min ua.id ut.id) (max ua.id ut.id)
      COMPAT_PROMPT_VERSION (pyOr (pyOr lang ua.lang) "ru") = none) :
    compatibility_check db a t lang none gen =
      ⟨.error ⟨402, "NO_COMPAT_CREDITS"⟩, db, false⟩ := by
  unfold compatibility_check
  rw [hu]
  simp only [replayLookup_none_rid, ht, beq_iff_eq, if_neg hne, har, hkey, hcred]
  rfl


/-- Witness for C8 at a concrete zero-credit requester. -/
theorem check_payment_required_witness :
    (findUser dbZero.users 1 = some wUserA0 ∧ wUserA0.compat_credits = 0 ∧
     findUser dbZero.users 2 = some wUserB ∧ wUserB.id ≠ wUserA0.id ∧
     findResult dbZero.results wUserA0.id = some wResA ∧
     findReportByPairLang dbZero.reports (min wUserA0.id wUserB.id) (max wUserA0.id wUserB.id)
       COMPAT_PROMPT_VERSION (pyOr (pyOr "ru" wUserA0.lang) "ru") = none) ∧
    compatibility_check dbZero 1 2 "ru" none (.ok "G") =
      ⟨.error ⟨402, "NO_COMPAT_CREDITS"⟩, dbZero, false⟩ := by
  refine ⟨⟨rfl, rfl, rfl, by decide, rfl, rfl⟩, ?_⟩
  exact check_payment_required dbZero 1 2 "ru" (.ok "G") wUserA0 wUserB wResA
    rfl rfl rfl (by decide) rfl rfl

/-- C2 (amended): when a report exists under the exact
(low, high, promptVersion, language) key — as after a first check in that
language reached ready — any further check for the pair with that language
and a fresh or absent requestId returns the same report id, does not debit a
credit, and does not invoke the generation service. -/
theorem check_cache_reuse (db : DB) (a t : Nat) (lang : String) (rid : Option String)
    (gen : Except String String) (ua ut : UserRow) (ar : UserResultRow) (r : CompatReportRow)
    (hu : findUser db.users a = some ua)
    (hrid : replayLookup db.reports ua.id rid = none)
    (ht : findUser db.users t = some ut) (hne : ut.id ≠ ua.id)
    (har : findResult db.results ua.id = some ar)
    (hkey : findReportByPairLang db.reports (min ua.id ut.id) (max ua.id ut.id)
      COMPAT_PROMPT_VERSION (pyOr (pyOr lang ua.lang) "ru") = some r)
    (_hready : r.status = "ready") :
    compatibility_check db a t lang rid gen = ⟨.ok (serialize_report r ua.id), db, false⟩ :=
  check_cache_hit db a t lang rid gen ua ut ar r hu hrid ht hne har hkey

/-- Witness for the amended C2 at a concrete cached English report. -/
theorem check_cache_reuse_witness :
    (findUser dbReadyEn.users 1 = some wUserA1 ∧
     replayLookup dbReadyEn.reports wUserA1.id none = none ∧
     findUser dbReadyEn.users 2 = some wUserB ∧ wUserB.id ≠ wUserA1.id ∧
     findResult dbReadyEn.results wUserA1.id = some wResA ∧
     findReportByPairLang dbReadyEn.reports (min wUserA1.id wUserB.id) (max wUserA1.id wUserB.id)
       COMPAT_PROMPT_VERSION (pyOr (pyOr "en" wUserA1.lang) "ru") = some wReadyEn ∧
     wReadyEn.status = "ready") ∧
    compatibility_check dbReadyEn 1 2 "en" none (.ok "G") =
      ⟨.ok (serialize_report wReadyEn wUserA1.id), dbReadyEn, false⟩ := by
  refine ⟨⟨rfl, rfl, rfl, by decide, rfl, rfl, rfl⟩, ?_⟩
  exact check_cache_reuse dbReadyEn 1 2 "en" none (.ok "G") wUserA1 wUserB wResA wReadyEn
    rfl rfl rfl (by decide) rfl rfl rfl

/-- Counterexample for C2 as stated: with a ready report stored for the same
pair and prompt version but a different language (the unique constraint of
`models.py` omits `language`), a first check in English returns a ready
report, yet the second identical check still invokes the generation service
(its insert is rolled back by the constraint on every call). -/
theorem cache_reuse_counterexample :
    (∃ resp, (compatibility_check dbRuOnly 1 2 "en" none (.ok "GEN")).response = .ok resp ∧
      resp.status = "ready") ∧
    (compatibility_check (compatibility_check dbRuOnly 1 2 "en" none (.ok "GEN")).db
      1 2 "en" none (.ok "GEN")).genCalled = true :=
  ⟨⟨_, rfl, rfl⟩, rfl⟩


/-- C7 (amended): under a fresh check call with a funded requester, valid
distinct target and successful generation oracle, any cached report for the
exact pair key — failed included — is returned untouched with no retry; the
generation service is re-invoked exactly when no report of any status exists
under the key; and when the pair carries no row at all the newly persisted
record is created directly in ready status (not pending). -/
theorem check_failed_not_retried (db : DB) (a t : Nat) (lang : String) (g p : String)
    (ua ut : UserRow) (ar : UserResultRow)
    (hu : findUser db.users a = some ua)
    (ht : findUser db.users t = some ut) (hne : ut.id ≠ ua.id)
    (har : findResult db.results ua.id = some ar)
    (hcred : ¬ua.compat_credits ≤ 0)
    (hpayload : build_compatibility_payload (pyOr (pyOr lang ua.lang) "ru") ar
      (findResult db.results ut.id) ua.name ut.name = some p) :
    (∀ r, findReportByPairLang db.reports (min ua.id ut.id) (max ua.id ut.id)
        COMPAT_PROMPT_VERSION (pyOr (pyOr lang ua.lang) "ru") = some r →
      compatibility_check db a t lang none (.ok g) =
        ⟨.ok (serialize_report r ua.id), db, false⟩) ∧
    ((compatibility_check db a t lang none (.ok g)).genCalled = true ↔
      findReportByPairLang db.reports (min ua.id ut.id) (max ua.id ut.id)
        COMPAT_PROMPT_VERSION (pyOr (pyOr lang ua.lang) "ru") = none) ∧
    (findReportByPairLang db.reports (min ua.id ut.id) (max ua.id ut.id)
        COMPAT_PROMPT_VERSION (pyOr (pyOr lang ua.lang) "ru") = none →
     findReportByPair db.reports (min ua.id ut.id) (max ua.id ut.id)
        COMPAT_PROMPT_VERSION = none →
      compatibility_check db a t lang none (.ok g) =
        ⟨.ok (serialize_report (newCheckReport db ua ut lang none g p) ua.id),
         afterCheckCreation db ua ut lang none g p, true⟩ ∧
      (newCheckReport db ua ut lang none g p).status = "ready") := by
  refine ⟨?_, ?_, ?_⟩
  · intro r hk
    exact check_cache_hit db a t lang none (.ok g) ua ut ar r hu rfl ht hne har hk
  · constructor
    · intro hg
      cases hk : findReportByPairLang db.reports (min ua.id ut.id) (max ua.id ut.id)
          COMPAT_PROMPT_VERSION (pyOr (pyOr lang ua.lang) "ru") with
      | none => rfl
      | some r =>
        rw [check_cache_hit db a t lang none (.ok g) ua ut ar r hu rfl ht hne har hk] at hg
        exact absurd hg (by simp)
    · intro hk
      by_cases hc : reportInsertConflict db.reports (newCheckReport db ua ut lang none g p) = true
      · rw [check_conflict db a t lang none g ua ut ar p hu rfl ht hne har hk hcred hpayload hc]
        exact recovery_genCalled _ _ _ _ _ _ _
      · rw [Bool.not_eq_true] at hc
        rw [check_creation db a t lang none g ua ut ar p hu rfl ht hne har hk hcred hpayload hc]
  · intro hk hpair
    have hconf : reportInsertConflict db.reports (newCheckReport db ua ut lang none g p) = false := by
      refine insertConflict_false hpair ?_
      intro rid hr
      exact absurd hr (by simp [newCheckReport])
    exact ⟨check_creation db a t lang none g ua ut ar p hu rfl ht hne har hk hcred hpayload hconf,
           rfl⟩

/-- Witness for the amended C7 on a fresh pair with no prior report. -/
theorem check_failed_not_retried_witness :
    (findUser dbFresh.users 1 = some wUserA1 ∧ ¬wUserA1.compat_credits ≤ 0 ∧
     findReportByPairLang dbFresh.reports (min wUserA1.id wUserB.id) (max wUserA1.id wUserB.id)
       COMPAT_PROMPT_VERSION (pyOr (pyOr "en" wUserA1.lang) "ru") = none) ∧
    ((compatibility_check dbFresh 1 2 "en" none (.ok "GEN")).genCalled = true ↔
      findReportByPairLang dbFresh.reports (min wUserA1.id wUserB.id) (max wUserA1.id wUserB.id)
        COMPAT_PROMPT_VERSION (pyOr (pyOr "en" wUserA1.lang) "ru") = none) := by
  refine ⟨⟨rfl, by decide, rfl⟩, ?_⟩
  exact (check_failed_not_retried dbFresh 1 2 "en" "GEN" _ wUserA1 wUserB wResA
    rfl rfl (by decide) rfl (by decide) rfl).2.1

/-- Counterexample for C7 as stated: with only a failed report stored for
the pair key (no ready report exists), a fresh check call does not re-attempt
generation and creates no new record — it returns the failed report as-is. -/
theorem failed_not_retried_counterexample :
    dbFailedEn.reports.all (fun r => !(r.status == "ready")) = true ∧
    (compatibility_check dbFailedEn 1 2 "en" none (.ok "GEN")).genCalled = false ∧
    (compatibility_check dbFailedEn 1 2 "en" none (.ok "GEN")).db = dbFailedEn :=
  ⟨rfl, rfl, rfl⟩


/-- C3: with a fresh non-null requestId X, a first check call creates the
report (storing X on it) and debits exactly one credit; the second call with
the same X returns the identical report with the state unchanged and no
generation call, so exactly one credit is debited in total; and — the replay
lookup preceding the credit check — a stored report under X is returned with
untouched state for any caller balance, target, and language. -/
theorem check_request_id_idempotent (db : DB) (a t : Nat) (lang : String) (X g p : String)
    (gen2 : Except String String) (ua ut : UserRow) (ar : UserResultRow)
    (hu : findUser db.users a = some ua)
    (hX : X ≠ "")
    (hfresh : ∀ r ∈ db.reports, r.request_id ≠ some X)
    (ht : findUser db.users t = some ut) (hne : ut.id ≠ ua.id)
    (har : findResult db.results ua.id = some ar)
    (hpair : findReportByPair db.reports (min ua.id ut.id) (max ua.id ut.id)
      COMPAT_PROMPT_VERSION = none)
    (hcred : ¬ua.compat_credits ≤ 0)
    (hpayload : build_compatibility_payload (pyOr (pyOr lang ua.lang) "ru") ar
      (findResult db.results ut.id) ua.name ut.name = some p) :
    (compatibility_check db a t lang (some X) (.ok g) =
      ⟨.ok (serialize_report (newCheckReport db ua ut lang (some X) g p) ua.id),
       afterCheckCreation db ua ut lang (some X) g p, true⟩) ∧
    findUser (afterCheckCreation db ua ut lang (some X) g p).users a =
      some { ua with compat_credits := ua.compat_credits - 1 } ∧
    (compatibility_check (afterCheckCreation db ua ut lang (some X) g p) a t lang (some X) gen2 =
      ⟨.ok (serialize_report (newCheckReport db ua ut lang (some X) g p) ua.id),
       afterCheckCreation db ua ut lang (some X) g p, false⟩) ∧
    (∀ (db' : DB) (c t' : Nat) (lang' : String) (gen' : Except String String)
       (u' : UserRow) (r : CompatReportRow),
       findUser db'.users c = some u' →
       replayLookup db'.reports u'.id (some X) = some r →
       compatibility_check db' c t' lang' (some X) gen' =
         ⟨.ok (serialize_report r u'.id), db', false⟩) := by
  have hrid : replayLookup db.reports ua.id (some X) = none :=
    replayLookup_none_of_fresh hX hfresh
  have hkey : findReportByPairLang db.reports (min ua.id ut.id) (max ua.id ut.id)
      COMPAT_PROMPT_VERSION (pyOr (pyOr lang ua.lang) "ru") = none :=
    findReportByPair_none_lang hpair
  have hconf : reportInsertConflict db.reports
      (newCheckReport db ua ut lang (some X) g p) = false := by
    refine insertConflict_false hpair ?_
    intro rid hr
    have : rid = X := by
      have : (some X : Option String) = some rid := hr
      exact (Option.some.inj this).symm
    subst this
    exact hfresh
  have e1 := check_creation db a t lang (some X) g ua ut ar p
    hu hrid ht hne har hkey hcred hpayload hconf
  have hfu : findUser (afterCheckCreation db ua ut lang (some X) g p).users a =
      some { ua with compat_credits := ua.compat_credits - 1 } := by
    show findUser (updateUser db.users ua.id _) a = _
    rw [findUser_updateUser
      (f := fun u => { u with compat_credits := clamp_credits (u.compat_credits - 1) })
      (fun u => rfl), hu]
    have hclamp : clamp_credits (ua.compat_credits - 1) = ua.compat_credits - 1 := by
      unfold clamp_credits
      omega
    simp [hclamp]
  refine ⟨e1, hfu, ?_, ?_⟩
  · have hreplay2 : replayLookup (afterCheckCreation db ua ut lang (some X) g p).reports ua.id
        (some X) = some (newCheckReport db ua ut lang (some X) g p) := by
      show replayLookup (db.reports ++ [newCheckReport db ua ut lang (some X) g p]) ua.id
          (some X) = _
      unfold replayLookup findReportByRequest
      dsimp only
      rw [if_pos (show pyStrTruthy X = true by simp [pyStrTruthy, hX])]
      rw [List.find?_append]
      have hleft : List.find? (fun r =>
          r.request_id == some X && (r.user_low_id == ua.id || r.user_high_id == ua.id))
          db.reports = none := by
        rw [List.find?_eq_none]
        intro x hx hc
        simp only [Bool.and_eq_true] at hc
        exact hfresh x hx (by simpa using hc.1)
      rw [hleft]
      have hpredBeta : ((newCheckReport db ua ut lang (some X) g p).request_id == some X &&
          ((newCheckReport db ua ut lang (some X) g p).user_low_id == ua.id ||
           (newCheckReport db ua ut lang (some X) g p).user_high_id == ua.id)) = true := by
        simp only [newCheckReport, beq_self_eq_true, Bool.true_and]
        exact min_max_self_or ua.id ut.id
      have hsingle : List.find? (fun r => r.request_id == some X &&
          (r.user_low_id == ua.id || r.user_high_id == ua.id))
          [newCheckReport db ua ut lang (some X) g p] =
          some (newCheckReport db ua ut lang (some X) g p) := by
        unfold List.find?
        rw [hpredBeta]
      rw [hsingle]
      rfl
    have e2 := check_replay_hit (afterCheckCreation db ua ut lang (some X) g p) a t lang
      (some X) gen2 { ua with compat_credits := ua.compat_credits - 1 }
      (newCheckReport db ua ut lang (some X) g p) hfu hreplay2
    exact e2
  · intro db' c t' lang' gen' u' r hu' hr'
    exact check_replay_hit db' c t' lang' (some X) gen' u' r hu' hr'


/-- C4: for distinct users A and B who both completed the quiz, a check A to
B followed by a check B to A (same non-empty language, no request ids) that
both return a report return the same underlying report row: the pair key is
canonicalized as (low, high) = sort(requesterId, targetId), so call order
does not affect which report is read or created. -/
theorem check_pair_symmetric (db : DB) (a t : Nat) (lang : String)
    (gen1 gen2 : Except String String) (ua ut : UserRow) (ar br : UserResultRow)
    (resp1 resp2 : ReportResponse)
    (hu : findUser db.users a = some ua)
    (ht : findUser db.users t = some ut) (hne : ut.id ≠ ua.id)
    (har : findResult db.results ua.id = some ar)
    (hbr : findResult db.results ut.id = some br)
    (hlang : lang ≠ "")
    (h1 : (compatibility_check db a t lang none gen1).response = .ok resp1)
    (h2 : (compatibility_check (compatibility_check db a t lang none gen1).db t a lang
        none gen2).response = .ok resp2) :
    resp2.id = resp1.id := by
  have hlangA : pyOr (pyOr lang ua.lang) "ru" = lang := by simp [pyOr, hlang]
  have hlangB : pyOr (pyOr lang ut.lang) "ru" = lang := by simp [pyOr, hlang]
  cases hkey : findReportByPairLang db.reports (min ua.id ut.id) (max ua.id ut.id)
      COMPAT_PROMPT_VERSION (pyOr (pyOr lang ua.lang) "ru") with
  | some r =>
    have e1 := check_cache_hit db a t lang none gen1 ua ut ar r hu rfl ht hne har hkey
    rw [e1] at h1 h2
    have hr1 : Except.ok (serialize_report r ua.id) = Except.ok resp1 := h1
    have h2x : (compatibility_check db t a lang none gen2).response = .ok resp2 := h2
    have hkey2 : findReportByPairLang db.reports (min ut.id ua.id) (max ut.id ua.id)
        COMPAT_PROMPT_VERSION (pyOr (pyOr lang ut.lang) "ru") = some r := by
      rw [Nat.min_comm, Nat.max_comm, hlangB]
      rw [hlangA] at hkey
      exact hkey
    have e2 := check_cache_hit db t a lang none gen2 ut ua br r ht rfl hu (Ne.symm hne)
      hbr hkey2
    rw [e2] at h2x
    have hr2 : Except.ok (serialize_report r ut.id) = Except.ok resp2 := h2x
    rw [← Except.ok.inj hr1, ← Except.ok.inj hr2]
    rfl
  | none =>
    by_cases hcred : ua.compat_credits ≤ 0
    · rw [check_insufficient db a t lang none gen1 ua ut ar hu rfl ht hne har hkey hcred] at h1
      simp at h1
    · cases hpay : build_compatibility_payload (pyOr (pyOr lang ua.lang) "ru") ar
          (findResult db.results ut.id) ua.name ut.name with
      | none =>
        rw [check_payload_keyerror db a t lang none gen1 ua ut ar hu rfl ht hne har hkey
          hcred hpay] at h1
        simp at h1
      | some p =>
        cases gen1 with
        | error e =>
          rw [check_gen_error db a t lang none e ua ut ar p hu rfl ht hne har hkey
            hcred hpay] at h1
          simp at h1
        | ok g =>
          by_cases hconf : reportInsertConflict db.reports
              (newCheckReport db ua ut lang none g p) = true
          · rw [check_conflict db a t lang none g ua ut ar p hu rfl ht hne har hkey
              hcred hpay hconf] at h1 h2
            unfold checkIntegrityRecovery at h1 h2
            rw [hkey] at h1 h2
            cases hm : findReportByPair db.reports (min ua.id ut.id) (max ua.id ut.id)
                COMPAT_PROMPT_VERSION with
            | none =>
              rw [hm] at h1
              simp [replayLookup] at h1
            | some m =>
              rw [hm] at h1 h2
              have hr1 : Except.ok (serialize_report m ua.id) = Except.ok resp1 := h1
              have h2x : (compatibility_check db t a lang none gen2).response = .ok resp2 := h2
              have hkey2 : findReportByPairLang db.reports (min ut.id ua.id) (max ut.id ua.id)
                  COMPAT_PROMPT_VERSION (pyOr (pyOr lang ut.lang) "ru") = none := by
                rw [Nat.min_comm, Nat.max_comm, hlangB]
                rw [hlangA] at hkey
                exact hkey
              by_cases hcred2 : ut.compat_credits ≤ 0
              · rw [check_insufficient db t a lang none gen2 ut ua br ht rfl hu (Ne.symm hne)
                  hbr hkey2 hcred2] at h2x
                simp at h2x
              · cases hpay2 : build_compatibility_payload (pyOr (pyOr lang ut.lang) "ru") br
                    (findResult db.results ua.id) ut.name ua.name with
                | none =>
                  rw [check_payload_keyerror db t a lang none gen2 ut ua br ht rfl hu
                    (Ne.symm hne) hbr hkey2 hcred2 hpay2] at h2x
                  simp at h2x
                | some p2 =>
                  cases gen2 with
                  | error e2 =>
                    rw [check_gen_error db t a lang none e2 ut ua br p2 ht rfl hu
                      (Ne.symm hne) hbr hkey2 hcred2 hpay2] at h2x
                    simp at h2x
                  | ok g2 =>
                    have hmfind := hm
                    unfold findReportByPair at hmfind
                    have hmem := List.mem_of_find?_eq_some hmfind
                    have hmpred := List.find?_some hmfind
                    have hconf2 : reportInsertConflict db.reports
                        (newCheckReport db ut ua lang none g2 p2) = true := by
                      refine insertConflict_true_of hmem ?_
                      show (m.user_low_id == min ut.id ua.id &&
                            m.user_high_id == max ut.id ua.id &&
                            m.prompt_version == COMPAT_PROMPT_VERSION) = true
                      rw [Nat.min_comm, Nat.max_comm]
                      exact hmpred
                    rw [check_conflict db t a lang none g2 ut ua br p2 ht rfl hu
                      (Ne.symm hne) hbr hkey2 hcred2 hpay2 hconf2] at h2x
                    unfold checkIntegrityRecovery at h2x
                    rw [hkey2] at h2x
                    have hm2 : findReportByPair db.reports (min ut.id ua.id) (max ut.id ua.id)
                        COMPAT_PROMPT_VERSION = some m := by
                      rw [Nat.min_comm, Nat.max_comm]
                      exact hm
                    rw [hm2] at h2x
                    have hr2 : Except.ok (serialize_report m ut.id) = Except.ok resp2 := h2x
                    rw [← Except.ok.inj hr1, ← Except.ok.inj hr2]
                    rfl
          · rw [Bool.not_eq_true] at hconf
            have e1 := check_creation db a t lang none g ua ut ar p hu rfl ht hne har hkey
              hcred hpay hconf
            rw [e1] at h1 h2
            have hr1 : Except.ok (serialize_report (newCheckReport db ua ut lang none g p)
                ua.id) = Except.ok resp1 := h1
            have h2x : (compatibility_check (afterCheckCreation db ua ut lang none g p) t a
                lang none gen2).response = .ok resp2 := h2
            have hu2 : findUser (afterCheckCreation db ua ut lang none g p).users t =
                some ut := by
              show findUser (updateUser db.users ua.id _) t = _
              rw [findUser_updateUser
                (f := fun u => { u with compat_credits := clamp_credits (u.compat_credits - 1) })
                (fun u => rfl), ht]
              simp [hne]
            have ht2 : findUser (afterCheckCreation db ua ut lang none g p).users a =
                some { ua with compat_credits := clamp_credits (ua.compat_credits - 1) } := by
              show findUser (updateUser db.users ua.id _) a = _
              rw [findUser_updateUser
                (f := fun u => { u with compat_credits := clamp_credits (u.compat_credits - 1) })
                (fun u => rfl), hu]
              simp
            have hkeyL : findReportByPairLang db.reports (min ua.id ut.id) (max ua.id ut.id)
                COMPAT_PROMPT_VERSION lang = none := by
              rw [hlangA] at hkey
              exact hkey
            have hkey2 : findReportByPairLang
                (afterCheckCreation db ua ut lang none g p).reports
                (min ut.id ua.id) (max ut.id ua.id) COMPAT_PROMPT_VERSION
                (pyOr (pyOr lang ut.lang) "ru") =
                some (newCheckReport db ua ut lang none g p) := by
              rw [Nat.min_comm, Nat.max_comm, hlangB]
              show findReportByPairLang (db.reports ++ [newCheckReport db ua ut lang none g p])
                  _ _ _ _ = _
              unfold findReportByPairLang at hkeyL ⊢
              rw [List.find?_append, hkeyL]
              have hpredBeta : ((newCheckReport db ua ut lang none g p).user_low_id ==
                    min ua.id ut.id &&
                  (newCheckReport db ua ut lang none g p).user_high_id == max ua.id ut.id &&
                  (newCheckReport db ua ut lang none g p).prompt_version ==
                    COMPAT_PROMPT_VERSION &&
                  (newCheckReport db ua ut lang none g p).language == lang) = true := by
                simp [newCheckReport, hlangA]
              have hsingle : List.find? (fun r =>
                  r.user_low_id == min ua.id ut.id && r.user_high_id == max ua.id ut.id &&
                  r.prompt_version == COMPAT_PROMPT_VERSION && r.language == lang)
                  [newCheckReport db ua ut lang none g p] =
                  some (newCheckReport db ua ut lang none g p) := by
                unfold List.find?
                rw [hpredBeta]
              rw [hsingle]
              rfl
            have e2 := check_cache_hit (afterCheckCreation db ua ut lang none g p) t a lang
              none gen2 ut { ua with compat_credits := clamp_credits (ua.compat_credits - 1) }
              br (newCheckReport db ua ut lang none g p) hu2 rfl ht2 (Ne.symm hne) hbr hkey2
            rw [e2] at h2x
            have hr2 : Except.ok (serialize_report (newCheckReport db ua ut lang none g p)
                ut.id) = Except.ok resp2 := h2x
            rw [← Except.ok.inj hr1, ← Except.ok.inj hr2]
            rfl


/-- Witness for C3 on a fresh pair and the request id "req-1". -/
theorem check_request_id_idempotent_witness :
    (findUser dbFresh.users 1 = some wUserA1 ∧ ("req-1" : String) ≠ "" ∧
     (∀ r ∈ dbFresh.reports, r.request_id ≠ some "req-1") ∧
     findReportByPair dbFresh.reports (min wUserA1.id wUserB.id) (max wUserA1.id wUserB.id)
       COMPAT_PROMPT_VERSION = none ∧ ¬wUserA1.compat_credits ≤ 0) ∧
    compatibility_check (afterCheckCreation dbFresh wUserA1 wUserB "ru" (some "req-1") "GEN"
        wPayloadRu) 1 2 "ru" (some "req-1") (.ok "OTHER") =
      ⟨.ok (serialize_report (newCheckReport dbFresh wUserA1 wUserB "ru" (some "req-1") "GEN"
          wPayloadRu) wUserA1.id),
       afterCheckCreation dbFresh wUserA1 wUserB "ru" (some "req-1") "GEN" wPayloadRu,
       false⟩ := by
  refine ⟨⟨rfl, by decide, by decide, rfl, by decide⟩, ?_⟩
  exact (check_request_id_idempotent dbFresh 1 2 "ru" "req-1" "GEN" wPayloadRu (.ok "OTHER")
    wUserA1 wUserB wResA rfl (by decide) (by decide) rfl (by decide) rfl rfl (by decide)
    rfl).2.2.1

/-- Witness for C4: the two directed check calls at a concrete fresh pair
return the same report id. -/
theorem check_pair_symmetric_witness :
    (findUser dbFresh.users 1 = some wUserA1 ∧ findUser dbFresh.users 2 = some wUserB ∧
     wUserB.id ≠ wUserA1.id ∧ ("en" : String) ≠ "" ∧
     wCheck1.response = .ok wResp1 ∧ wCheck2.response = .ok wResp2) ∧
    wResp2.id = wResp1.id := by
  refine ⟨⟨rfl, rfl, by decide, by decide, rfl, rfl⟩, ?_⟩
  exact check_pair_symmetric dbFresh 1 2 "en" (.ok "GEN") (.ok "GEN2") wUserA1 wUserB
    wResA wResB wResp1 wResp2 rfl rfl (by decide) rfl rfl (by decide) rfl rfl


/-- C6: the first pack purchase with a fresh idempotency key Y adds the pack
size (3 or 10) to the balance and records a PackPurchase carrying Y; any
replay of Y by the same user returns the previously computed balance without
crediting again and leaves the state unchanged; a replay of Y by a different
user fails with a 409 conflict. -/
theorem purchase_pack_idempotent (db : DB) (c : Nat) (packSize : Int) (Y : String)
    (ua : UserRow)
    (hu : findUser db.users c = some ua)
    (hY : Y ≠ "")
    (hfresh : ∀ pr ∈ db.purchases, pr.request_id ≠ some Y)
    (hnn : 0 ≤ ua.compat_credits)
    (hsize : packSize = 3 ∨ packSize = 10) :
    (compatibility_purchase_pack db c packSize (some Y) =
      ⟨.ok ⟨ua.compat_credits + packSize, ua.has_full, ua.id, ua.lang⟩,
       afterPackPurchase db ua packSize (some Y)⟩) ∧
    (afterPackPurchase db ua packSize (some Y)).purchases =
      db.purchases ++ [{ user_id := ua.id, pack_size := packSize, request_id := some Y }] ∧
    (∀ size2 : Int,
      compatibility_purchase_pack (afterPackPurchase db ua packSize (some Y)) c size2
          (some Y) =
        ⟨.ok ⟨ua.compat_credits + packSize, ua.has_full, ua.id, ua.lang⟩,
         afterPackPurchase db ua packSize (some Y)⟩) ∧
    (∀ (c2 : Nat) (ub : UserRow) (size3 : Int),
      findUser db.users c2 = some ub → ub.id ≠ ua.id →
      compatibility_purchase_pack (afterPackPurchase db ua packSize (some Y)) c2 size3
          (some Y) =
        ⟨.error ⟨409, "Request ID already used"⟩, afterPackPurchase db ua packSize (some Y)⟩) := by
  have htr : pyTruthy (some Y) = true := by simp [pyTruthy, pyStrTruthy, hY]
  have hclamp : clamp_credits (ua.compat_credits + packSize) = ua.compat_credits + packSize := by
    unfold clamp_credits
    rcases hsize with h | h <;> omega
  have hleft : List.find? (fun p => p.request_id == some Y) db.purchases = none := by
    rw [List.find?_eq_none]
    intro x hx hc
    exact hfresh x hx (by simpa using hc)
  have hfindafter : List.find? (fun p => p.request_id == some Y)
      (afterPackPurchase db ua packSize (some Y)).purchases =
      some { user_id := ua.id, pack_size := packSize, request_id := some Y } := by
    show List.find? _ (if pyTruthy (some Y) then _ else _) = _
    rw [if_pos htr, List.find?_append, hleft]
    have hb : (({ user_id := ua.id, pack_size := packSize, request_id := some Y }
        : PackPurchaseRow).request_id == some Y) = true := by simp
    have hs : List.find? (fun p => p.request_id == some Y)
        [({ user_id := ua.id, pack_size := packSize, request_id := some Y }
          : PackPurchaseRow)] =
        some { user_id := ua.id, pack_size := packSize, request_id := some Y } := by
      unfold List.find?
      rw [hb]
    rw [hs]
    rfl
  refine ⟨?_, ?_, ?_, ?_⟩
  · unfold compatibility_purchase_pack
    rw [hu]
    simp only [htr, if_true, hleft]
    unfold user_me_response afterPackPurchase
    rw [if_pos htr]
    simp only [hclamp]
  · show (if pyTruthy (some Y) then _ else _) = _
    rw [if_pos htr]
  · intro size2
    unfold compatibility_purchase_pack
    have hu2 : findUser (afterPackPurchase db ua packSize (some Y)).users c = some
        { ua with
            packs_bought := ua.packs_bought + 1
            compat_credits := clamp_credits (ua.compat_credits + packSize) } := by
      show findUser (updateUser db.users ua.id _) c = _
      rw [findUser_updateUser
        (f := fun u => { u with
          packs_bought := u.packs_bought + 1
          compat_credits := clamp_credits (u.compat_credits + packSize) })
        (fun u => rfl), hu]
      simp
    rw [hu2]
    simp only [htr, if_true, hfindafter]
    have : ¬¬(({ user_id := ua.id, pack_size := packSize, request_id := some Y }
        : PackPurchaseRow).user_id ==
        ({ ua with
            packs_bought := ua.packs_bought + 1
            compat_credits := clamp_credits (ua.compat_credits + packSize) } : UserRow).id)
        = true := by simp
    rw [if_neg this]
    unfold user_me_response
    simp only [hclamp]
  · intro c2 ub size3 hub hbne
    unfold compatibility_purchase_pack
    have hu2 : findUser (afterPackPurchase db ua packSize (some Y)).users c2 = some ub := by
      show findUser (updateUser db.users ua.id _) c2 = _
      rw [findUser_updateUser
        (f := fun u => { u with
          packs_bought := u.packs_bought + 1
          compat_credits := clamp_credits (u.compat_credits + packSize) })
        (fun u => rfl), hub]
      simp [hbne]
    rw [hu2]
    simp only [htr, if_true, hfindafter]
    rw [if_pos]
    simp only [beq_iff_eq]
    exact fun h => hbne h.symm

/-- Witness for C6 at a concrete fresh purchase of a 3-pack. -/
theorem purchase_pack_idempotent_witness :
    (findUser dbFresh.users 1 = some wUserA1 ∧ ("pp-1" : String) ≠ "" ∧
     (∀ pr ∈ dbFresh.purchases, pr.request_id ≠ some "pp-1") ∧
     (0 : Int) ≤ wUserA1.compat_credits ∧ ((3 : Int) = 3 ∨ (3 : Int) = 10)) ∧
    compatibility_purchase_pack dbFresh 1 3 (some "pp-1") =
      ⟨.ok ⟨wUserA1.compat_credits + 3, wUserA1.has_full, wUserA1.id, wUserA1.lang⟩,
       afterPackPurchase dbFresh wUserA1 3 (some "pp-1")⟩ := by
  refine ⟨⟨rfl, by decide, by decide, by decide, Or.inl rfl⟩, ?_⟩
  exact (purchase_pack_idempotent dbFresh 1 3 "pp-1" wUserA1 rfl (by decide) (by decide)
    (by decide) (Or.inl rfl)).1


lemma mem_animals_ne_empty : ∀ x ∈ ALLOWED_ANIMALS, x ≠ "" := by decide

lemma mem_genders_ne_empty : ∀ x ∈ ALLOWED_GENDERS, x ≠ "" := by decide

lemma elementLabels_lang_codes (lang : String) :
    ∀ p ∈ (ELEMENT_LABELS lang).getD [], p.1 ∈ ALLOWED_ELEMENTS := by
  unfold ELEMENT_LABELS
  split_ifs <;> decide

lemma elementLabelsAll_codes : ∀ m ∈ elementLabelsAll, ∀ p ∈ m, p.1 ∈ ALLOWED_ELEMENTS := by
  decide

lemma findInLabelMaps_mem {maps : List (List (String × String))} {lbl c : String}
    (h : findInLabelMaps maps lbl = some c)
    (hall : ∀ m ∈ maps, ∀ p ∈ m, p.1 ∈ ALLOWED_ELEMENTS) : c ∈ ALLOWED_ELEMENTS := by
  induction maps with
  | nil => exact absurd h (by simp [findInLabelMaps])
  | cons m rest ih =>
    unfold findInLabelMaps at h
    cases hl : lookupByLabel m lbl with
    | some cc =>
      rw [hl] at h
      have hcc : cc = c := by simpa using h
      subst hcc
      unfold lookupByLabel at hl
      cases hf : List.find? (fun p => p.2 == lbl) m with
      | none =>
        rw [hf] at hl
        exact absurd hl (by simp)
      | some pr =>
        rw [hf] at hl
        have hpm : pr ∈ m := List.mem_of_find?_eq_some hf
        have hpr : pr.1 = cc := by simpa using hl
        rw [← hpr]
        exact hall m (List.mem_cons_self m rest) pr hpm
    | none =>
      rw [hl] at h
      have h' : findInLabelMaps rest lbl = some c := by simpa using h
      exact ih h' (fun mm hmm => hall mm (List.mem_cons_of_mem m hmm))

lemma normalize_locked_element_mem {e lang ne : String}
    (h : normalize_locked_element e lang = some ne) : ne ∈ ALLOWED_ELEMENTS := by
  unfold normalize_locked_element at h
  by_cases hc : ALLOWED_ELEMENTS.contains e = true
  · rw [if_pos hc] at h
    have he : e = ne := by simpa using h
    rw [← he]
    exact List.mem_of_elem_eq_true hc
  · rw [if_neg hc] at h
    cases hf : findInLabelMaps [(ELEMENT_LABELS lang).getD [], elementLabelsRu] e with
    | some c =>
      rw [hf] at h
      have hcne : c = ne := by simpa using h
      subst hcne
      refine findInLabelMaps_mem hf ?_
      intro m hm
      rcases List.mem_pair.mp hm with rfl | rfl
      · exact elementLabels_lang_codes lang
      · exact elementLabelsAll_codes elementLabelsRu (by decide)
    | none =>
      rw [hf] at h
      have h' : findInLabelMaps elementLabelsAll e = some ne := by simpa using h
      exact findInLabelMaps_mem h' elementLabelsAll_codes

/-- C9 (amended): a fully supplied locked triple whose animal is one of the
24 codes, whose element is an allowed code or a display label of one of the
four languages, and whose gender-form is allowed resolves to itself with the
element normalized to its canonical code; an out-of-enum animal or element
fails with a 400 validation error; an out-of-enum gender-form produced by
the generation service is coerced to "unspecified"; but an out-of-enum
LOCKED gender-form also fails with a 400 validation error — it is not
coerced. -/
theorem resolve_locked_codes_spec :
    (∀ a e g lang ne, a ∈ ALLOWED_ANIMALS → normalize_locked_element e lang = some ne →
      g ∈ ALLOWED_GENDERS → e ≠ "" →
      resolve_locked_codes (some a) (some e) (some g) lang = .ok (some ⟨a, ne, g⟩)) ∧
    (∀ a e g lang, a ∉ ALLOWED_ANIMALS → a ≠ "" → e ≠ "" → g ≠ "" →
      resolve_locked_codes (some a) (some e) (some g) lang =
        .error ⟨400, "Invalid lockedAnimal"⟩) ∧
    (∀ a e g lang, a ∈ ALLOWED_ANIMALS → normalize_locked_element e lang = none →
      e ≠ "" → g ≠ "" →
      resolve_locked_codes (some a) (some e) (some g) lang =
        .error ⟨400, "Invalid lockedElement"⟩) ∧
    (∀ a e g lang ne, a ∈ ALLOWED_ANIMALS → normalize_locked_element e lang = some ne →
      g ∉ ALLOWED_GENDERS → e ≠ "" → g ≠ "" →
      resolve_locked_codes (some a) (some e) (some g) lang =
        .error ⟨400, "Invalid lockedGenderForm"⟩) ∧
    (∀ a e g, a ∈ ALLOWED_ANIMALS → e ∈ ALLOWED_ELEMENTS → g ∉ ALLOWED_GENDERS →
      run_short_analysis_validate ⟨some a, some e, some g⟩ = .ok ⟨a, e, "unspecified"⟩) := by
  refine ⟨?_, ?_, ?_, ?_, ?_⟩
  · intro a e g lang ne ha hne hg he
    have hca : ALLOWED_ANIMALS.contains a = true := List.elem_eq_true_of_mem ha
    have hcn : ALLOWED_ELEMENTS.contains ne = true :=
      List.elem_eq_true_of_mem (normalize_locked_element_mem hne)
    have hcg : ALLOWED_GENDERS.contains g = true := List.elem_eq_true_of_mem hg
    unfold resolve_locked_codes
    rw [if_neg (by simp [pyTruthy, pyStrTruthy, mem_animals_ne_empty a ha, he,
      mem_genders_ne_empty g hg])]
    simp [hne, ha, normalize_locked_element_mem hne, hg]
  · intro a e g lang ha ha2 he hg
    have hcaf : ALLOWED_ANIMALS.contains a = false := by
      rw [← Bool.not_eq_true]
      exact fun hc => ha (List.mem_of_elem_eq_true hc)
    unfold resolve_locked_codes
    rw [if_neg (by simp [pyTruthy, pyStrTruthy, ha2, he, hg])]
    simp [ha]
  · intro a e g lang ha hne he hg
    have hca : ALLOWED_ANIMALS.contains a = true := List.elem_eq_true_of_mem ha
    unfold resolve_locked_codes
    rw [if_neg (by simp [pyTruthy, pyStrTruthy, mem_animals_ne_empty a ha, he, hg])]
    simp [ha, hne]
  · intro a e g lang ne ha hne hg he hg2
    have hca : ALLOWED_ANIMALS.contains a = true := List.elem_eq_true_of_mem ha
    have hcn : ALLOWED_ELEMENTS.contains ne = true :=
      List.elem_eq_true_of_mem (normalize_locked_element_mem hne)
    have hcgf : ALLOWED_GENDERS.contains g = false := by
      rw [← Bool.not_eq_true]
      exact fun hc => hg (List.mem_of_elem_eq_true hc)
    unfold resolve_locked_codes
    rw [if_neg (by simp [pyTruthy, pyStrTruthy, mem_animals_ne_empty a ha, he, hg2])]
    simp [ha, hne, normalize_locked_element_mem hne, hg]
  · intro a e g ha hel hg
    have hca : ALLOWED_ANIMALS.contains a = true := List.elem_eq_true_of_mem ha
    have hce : ALLOWED_ELEMENTS.contains e = true := List.elem_eq_true_of_mem hel
    have hcgf : ALLOWED_GENDERS.contains g = false := by
      rw [← Bool.not_eq_true]
      exact fun hc => hg (List.mem_of_elem_eq_true hc)
    unfold run_short_analysis_validate
    simp [ha, hel, hg]

/-- Witness for the amended C9: a valid triple with an English element label
normalizes; the generation-service path coerces a bad gender-form. -/
theorem resolve_locked_codes_spec_witness :
    ("Wolf" ∈ ALLOWED_ANIMALS ∧
     normalize_locked_element "Fire" "en" = some "Огонь" ∧
     "male" ∈ ALLOWED_GENDERS ∧ ("Fire" : String) ≠ "" ∧
     "banana" ∉ ALLOWED_GENDERS) ∧
    resolve_locked_codes (some "Wolf") (some "Fire") (some "male") "en" =
      .ok (some ⟨"Wolf", "Огонь", "male"⟩) ∧
    run_short_analysis_validate ⟨some "Wolf", some "Огонь", some "banana"⟩ =
      .ok ⟨"Wolf", "Огонь", "unspecified"⟩ := by
  refine ⟨⟨by decide, rfl, by decide, by decide, by decide⟩, ?_, ?_⟩
  · exact resolve_locked_codes_spec.1 "Wolf" "Fire" "male" "en" "Огонь" (by decide) rfl
      (by decide) (by decide)
  · exact resolve_locked_codes_spec.2.2.2.2 "Wolf" "Огонь" "banana" (by decide) (by decide)
      (by decide)

/-- Counterexample for C9 as stated: an out-of-enum LOCKED gender-form is
rejected with a 400 validation error, not coerced to "unspecified". -/
theorem resolve_locked_genderform_counterexample :
    resolve_locked_codes (some "Wolf") (some "Огонь") (some "banana") "ru" =
      .error ⟨400, "Invalid lockedGenderForm"⟩ := rfl

/-- C10: when the locked triple is not fully supplied (Python
truthiness: a missing or empty field), the resolver returns None without
validating the supplied fields, and the short-analysis archetype is
recomputed via the generation service. -/
theorem incomplete_locked_unvalidated (la le lg : Option String) (lang : String)
    (gen : Except String GenCodesOutput)
    (h : ¬(pyTruthy la = true ∧ pyTruthy le = true ∧ pyTruthy lg = true)) :
    resolve_locked_codes la le lg lang = .ok none ∧
    (analyze_short_codes la le lg lang gen).2 = true ∧
    (∀ data c, gen = .ok data → run_short_analysis_validate data = .ok c →
      (analyze_short_codes la le lg lang gen).1 = .ok c) := by
  have hres : resolve_locked_codes la le lg lang = .ok none := by
    unfold resolve_locked_codes
    rw [if_pos]
    simpa using h
  refine ⟨hres, ?_, ?_⟩
  · unfold analyze_short_codes
    rw [hres]
    cases gen with
    | error e => rfl
    | ok data =>
      cases hv : run_short_analysis_validate data with
      | error e => simp [hv]
      | ok c => simp [hv]
  · intro data c hg hv
    subst hg
    unfold analyze_short_codes
    rw [hres]
    simp [hv]

/-- Witness for C10: an invalid lockedAnimal together with a missing
lockedElement produces no validation error, and the generation service is
consulted instead. -/
theorem incomplete_locked_unvalidated_witness :
    (¬(pyTruthy (some "Dragon") = true ∧ pyTruthy (none : Option String) = true ∧
       pyTruthy (some "male") = true)) ∧
    resolve_locked_codes (some "Dragon") none (some "male") "ru" = .ok none ∧
    (analyze_short_codes (some "Dragon") none (some "male") "ru"
      (.ok ⟨some "Wolf", some "Огонь", some "male"⟩)).2 = true := by
  refine ⟨by decide, ?_, ?_⟩
  · exact (incomplete_locked_unvalidated (some "Dragon") none (some "male") "ru"
      (.ok ⟨some "Wolf", some "Огонь", some "male"⟩) (by decide)).1
  · exact (incomplete_locked_unvalidated (some "Dragon") none (some "male") "ru"
      (.ok ⟨some "Wolf", some "Огонь", some "male"⟩) (by decide)).2.1

/-! ## Claim theorems: invariants -/

/-- C1: for every reachable database state, at most one CompatReport row
exists per (userLowId, userHighId, promptVersion, language) tuple, and at
most one CompatReport row exists per non-null requestId; every operation
(check, invite, acceptInvite — and the ledger operations besides) preserves
this. The database unique constraints of `models.py` (modelled in
`reportInsertConflict`) are on `(low, high, prompt_version)` — without
language — and on `request_id`, which is stronger than the claimed
per-language uniqueness, so the claimed invariant is preserved. -/
theorem report_uniqueness_invariant (op : Op) (db : DB)
    (h : reportsUnique db.reports) : reportsUnique (step op db).reports := by
  cases op with
  | check a t lang rid gen => exact check_reportsUnique db a t lang rid gen h
  | invite c e t r tok =>
    show reportsUnique (compatibility_invite db c e t r tok).db.reports
    rw [invite_reports]
    exact h
  | acceptInvite c tok gen => exact accept_reportsUnique db c tok gen h
  | purchasePack c s r =>
    show reportsUnique (compatibility_purchase_pack db c s r).db.reports
    rw [ppack_reports]
    exact h
  | purchaseCompatPack c =>
    show reportsUnique (purchase_compat_pack db c).db.reports
    rw [pcompat_reports]
    exact h
  | purchaseFull c =>
    show reportsUnique (purchase_full db c).db.reports
    rw [pfull_reports]
    exact h
  | registerUser e t n l sr =>
    show reportsUnique (register db e t n l sr).db.reports
    rw [register_reports]
    exact h

/-- Witness for C1: the invariant holds of the empty database and is carried
across a concrete check call. -/
theorem report_uniqueness_invariant_witness :
    reportsUnique emptyDB.reports ∧
    reportsUnique (step (.check 1 2 "ru" none (.ok "x")) emptyDB).reports :=
  ⟨List.Pairwise.nil,
   report_uniqueness_invariant (.check 1 2 "ru" none (.ok "x")) emptyDB List.Pairwise.nil⟩

/-- C5: starting from any state whose users all have non-negative integer
credit balances (and well-formed primary keys), every operation that
modifies credits — check's debit, invite's debit, acceptInvite's refund,
pack purchases, the full-entitlement bonus, and registration — leaves every
balance a non-negative integer; no operation leaves a negative balance. -/
theorem credit_floor_preserved (op : Op) (db : DB)
    (hwf : usersWF db) (hnn : creditsNonneg db.users) :
    creditsNonneg (step op db).users ∧ usersWF (step op db) := by
  cases op with
  | check a t lang rid gen =>
    exact ⟨(check_usersInv db a t lang rid gen hwf hnn).2,
           (check_usersInv db a t lang rid gen hwf hnn).1⟩
  | invite c e t r tok =>
    exact ⟨(invite_usersInv db c e t r tok hwf hnn).2, (invite_usersInv db c e t r tok hwf hnn).1⟩
  | acceptInvite c tok gen =>
    exact ⟨(accept_usersInv db c tok gen hwf hnn).2, (accept_usersInv db c tok gen hwf hnn).1⟩
  | purchasePack c s r =>
    exact ⟨(ppack_usersInv db c s r hwf hnn).2, (ppack_usersInv db c s r hwf hnn).1⟩
  | purchaseCompatPack c =>
    exact ⟨(pcompat_usersInv db c hwf hnn).2, (pcompat_usersInv db c hwf hnn).1⟩
  | purchaseFull c =>
    exact ⟨(pfull_usersInv db c hwf hnn).2, (pfull_usersInv db c hwf hnn).1⟩
  | registerUser e t n l sr =>
    exact ⟨(register_usersInv db e t n l sr hwf hnn).2, (register_usersInv db e t n l sr hwf hnn).1⟩

/-- Witness for C5: the empty state is well formed and a concrete
registration (which creates a user with 1 starting credit) keeps all
balances non-negative. -/
theorem credit_floor_preserved_witness :
    usersWF emptyDB ∧ creditsNonneg emptyDB.users ∧
    creditsNonneg
      (step (.registerUser (some "a@x") none (some "A") (some "ru") none) emptyDB).users := by
  have hwf0 : usersWF emptyDB :=
    ⟨List.Pairwise.nil, fun u hu => absurd hu (List.not_mem_nil u)⟩
  have hnn0 : creditsNonneg emptyDB.users := fun u hu => absurd hu (List.not_mem_nil u)
  exact ⟨hwf0, hnn0,
    (credit_floor_preserved (.registerUser (some "a@x") none (some "A") (some "ru") none)
      emptyDB hwf0 hnn0).1⟩



end Reino
